import Mathlib

/-!
# Callbot platform: the routes of `server.js` and the call log of the dashboard

A shallow embedding of `server.js` and of the pure parts of `CallLogs.jsx`:

* `getAIResponse` (the reply generator) and `sendWhatsAppMessage` (the notification sender),
* the handler of `POST /webhook/voice` (start of a call),
* the handler of `POST /webhook/process-speech` (a speech turn),
* the REST handlers (statistics, calls, orders, products, faqs, payments, order processing),
* `handle`, which serves a request by the handler of its route,
* `formatDuration` and `filteredCalls` of the dashboard's call log.

The handlers talk to collaborators that are not code of the repository: the hosted store
behind `supabase.from(...)`, the text-generation client `openai.chat.completions.create`,
the messaging gateway reached with `axios.get`, the payments client
`stripeClient.paymentIntents.create`, and the TwiML builder `twilio.twiml.VoiceResponse`.
Each awaited call is modelled by its possible results (it resolves, or it rejects,
which `await` turns into a thrown error), each table by the list of its rows,
and the TwiML document by the list of the verbs appended to it.
A number is a double: its exact value is kept as a rational, and every arithmetic operation
rounds the exact result to the nearest double (`JsNum.ofRat`).
-/

namespace Callbot

/-! ## Values -/

/-- A JavaScript value that is a string, `null` or `undefined`. -/
inductive JsStr where
  | undefined
  | null
  | str (s : String)
deriving DecidableEq, Repr

/-- One row of the `calls` table. A column holding SQL `NULL` is `none`. -/
structure CallRecord where
  caller_number : Option String
  call_sid : Option String
  status : String
  duration : Option Nat
  transcript : Option String
  ai_response : Option String
  created_at : Nat
deriving DecidableEq, Repr

/-- The form-encoded body of a webhook request (`req.body`); a field the request does not
carry reads as `undefined`, here `none`. -/
structure WebhookBody where
  From : Option String
  CallSid : Option String
  SpeechResult : Option String
deriving DecidableEq, Repr

/-! ## The TwiML document -/

/-- A `<Say>` element: its `voice` and `language` attributes and its text. -/
structure Say where
  voice : Option String
  language : Option String
  text : Option String
deriving DecidableEq, Repr

/-- The verbs the handlers append to a `VoiceResponse`. The `<Say>` children of a
`<Gather>` are the ones added by `gather.say(...)`. -/
inductive Verb where
  | say (s : Say)
  | gather (input : String) (timeout : Nat) (action : String) (children : List Say)
  | hangup
deriving DecidableEq, Repr

/-- The HTTP response of a webhook: `res.type(...)` and the document whose serialisation
`twiml.toString()` is sent. -/
structure Response where
  contentType : String
  document : List Verb
deriving DecidableEq, Repr

/-! ## The store collaborator -/

/-- The result of one awaited call on `supabase.from('calls')`: the promise resolves with no
`error`, resolves with an `error` object (the row operation was not applied), or rejects
(the `await` throws). -/
inductive StoreOutcome where
  | ok
  | reportedError (message : String)
  | thrown (message : String)
deriving DecidableEq, Repr

/-- The object passed to `.update(...)` in the speech turn. A property whose value is
`undefined` is dropped when the object is serialised, so its column is left alone. -/
structure CallPatch where
  transcript : Option String
  ai_response : JsStr
deriving DecidableEq, Repr

/-- The filter `.eq('call_sid', v)`: the column equals the filter value written as text
(`undefined` is written as the text `undefined`); a `NULL` column equals nothing. -/
def eqCallSid (v : Option String) (r : CallRecord) : Bool :=
  match r.call_sid with
  | none => false
  | some s => s == v.getD "undefined"

/-- Apply the properties of a patch to one row. -/
def CallPatch.apply (p : CallPatch) (r : CallRecord) : CallRecord :=
  { r with
    transcript := match p.transcript with
      | none => r.transcript
      | some t => some t
    ai_response := match p.ai_response with
      | .undefined => r.ai_response
      | .null => none
      | .str a => some a }

/-- The rows after `update(p).eq('call_sid', v)` was applied: every matching row is patched. -/
def updateRows (p : CallPatch) (v : Option String) (rows : List CallRecord) : List CallRecord :=
  rows.map fun r => if eqCallSid v r then p.apply r else r

/-! ## The handler monad -/

/-- What a running handler can change: the `calls` table and the `VoiceResponse` under
construction. -/
structure HandlerState where
  calls : List CallRecord
  twiml : List Verb
deriving DecidableEq, Repr

/-- A handler step: it may throw (a message), and the state reached so far is kept. -/
abbrev Handler := ExceptT String (StateM HandlerState)

/-- Models `await supabase.from('calls').insert(row)`: the resolved `error` (if any) is the
result; the handlers of this file do not read it. -/
def supabaseInsertCall (o : StoreOutcome) (row : CallRecord) : Handler (Option String) :=
  match o with
  | .ok => do
      modify fun s => { s with calls := s.calls ++ [row] }
      pure none
  | .reportedError m => pure (some m)
  | .thrown m => throw m

/-- Models `await supabase.from('calls').update(p).eq('call_sid', v)`. -/
def supabaseUpdateCalls (o : StoreOutcome) (p : CallPatch) (v : Option String) :
    Handler (Option String) :=
  match o with
  | .ok => do
      modify fun s => { s with calls := updateRows p v s.calls }
      pure none
  | .reportedError m => pure (some m)
  | .thrown m => throw m

/-- Append a verb to the document: the effect of `twiml.say`, `twiml.gather`, `twiml.hangup`. -/
def twimlAppend (v : Verb) : Handler Unit :=
  modify fun s => { s with twiml := s.twiml ++ [v] }

/-- The call `twiml.say(text)` or `gather.say(text)` with a string literal. -/
def plainSay (text : String) : Say :=
  { voice := none, language := none, text := some text }

/-- Append verbs to the document. -/
def twimlAppendAll (vs : List Verb) : Handler Unit :=
  modify fun s => { s with twiml := s.twiml ++ vs }

/-- The verbs the call `twiml.say(\x7b voice: 'alice', language: 'en-US' \x7d, message)` appends.
The XML builder skips an element whose text is `null`, so nothing is appended for `null`; an
`undefined` message gives a `<Say>` without text. -/
def aliceSay (message : JsStr) : List Verb :=
  match message with
  | .null => []
  | .undefined => [.say { voice := some "alice", language := some "en-US", text := none }]
  | .str text => [.say { voice := some "alice", language := some "en-US", text := some text }]

/-! ## The reply generator -/

/-- One message of a chat request; `content` is `none` when the value passed is `undefined`. -/
structure ChatMessage where
  role : String
  content : Option String
deriving DecidableEq, Repr

/-- The argument of `openai.chat.completions.create`. -/
structure ChatRequest where
  model : String
  messages : List ChatMessage
  max_tokens : Nat
deriving DecidableEq, Repr

/-- The `message` of a returned choice. -/
structure ReplyMessage where
  content : JsStr
deriving DecidableEq, Repr

/-- One returned choice; `message` may be missing. -/
structure Choice where
  message : Option ReplyMessage
deriving DecidableEq, Repr

/-- The resolved value of the completion call; `choices` may be missing. -/
structure Completion where
  choices : Option (List Choice)
deriving DecidableEq, Repr

/-- The result of the awaited completion call: it resolves with a completion, or rejects
(service error, timeout, quota). -/
inductive ServiceOutcome where
  | resolved (c : Completion)
  | rejected (message : String)
deriving DecidableEq, Repr

/-- The string `getAIResponse` returns from its `catch` block. -/
def aiApology : String :=
  "I\x27m sorry, I\x27m having trouble processing your request right now. Please try again."

/-- The request `getAIResponse` builds from its two parameters. -/
def chatRequest (userMessage : Option String) (context : String) : ChatRequest :=
  { model := "gpt-3.5-turbo"
    messages :=
      [ { role := "system"
          content := some ("You are a helpful business assistant. " ++ context ++
            " Keep responses concise and friendly. If asked about orders or payments, guide them through the process.") },
        { role := "user", content := userMessage } ]
    max_tokens := 150 }

/-- The expression `completion.choices[0].message.content`: reading a property of
`undefined` throws a `TypeError`. -/
def readContent (c : Completion) : Except String JsStr :=
  match c.choices with
  | none => throw "Cannot read properties of undefined (reading \x270\x27)"
  | some [] => throw "Cannot read properties of undefined (reading \x27message\x27)"
  | some (ch :: _) =>
    match ch.message with
    | none => throw "Cannot read properties of undefined (reading \x27content\x27)"
    | some m => pure m.content

/-- The `try` block of `getAIResponse`. -/
def getAIResponseTry (openai : ChatRequest → ServiceOutcome) (userMessage : Option String)
    (context : String) : Except String JsStr :=
  match openai (chatRequest userMessage context) with
  | .rejected e => throw e
  | .resolved completion => readContent completion

/-- The function `getAIResponse(userMessage, context)`: `.ok v` when it returns `v`, `.error e`
when it throws `e`. -/
def getAIResponse (openai : ChatRequest → ServiceOutcome) (userMessage : Option String)
    (context : String) : Except String JsStr :=
  tryCatch (getAIResponseTry openai userMessage context) fun _ => pure (.str aiApology)

/-! ## `POST /webhook/voice` -/

/-- The greeting spoken at the start of a call. -/
def greetingText : String :=
  "Hello! Welcome to our business. I can help you with information about our products and services. Please speak after the beep."

/-- The prompt spoken inside the first capture directive. -/
def firstPromptText : String := "Please tell me how I can help you today."

/-- The line spoken when the first capture window closes without speech. -/
def noInputText : String :=
  "I didn\x27t hear anything. Please call back when you\x27re ready to speak."

/-- The line spoken from the `catch` block of the start-of-call handler. -/
def voiceApology : String := "I\x27m sorry, there was an error. Please try calling again."

/-- The row the start-of-call handler inserts; `transcript` and `ai_response` are not sent
and `created_at` is filled by the store (`now`). -/
def newCallRecord (body : WebhookBody) (now : Nat) : CallRecord :=
  { caller_number := body.From
    call_sid := body.CallSid
    status := "answered"
    duration := some 0
    transcript := none
    ai_response := none
    created_at := now }

/-- The `try` block of the start-of-call handler. -/
def voiceTry (insert : StoreOutcome) (now : Nat) (body : WebhookBody) : Handler Unit := do
  let _ ← supabaseInsertCall insert (newCallRecord body now)
  twimlAppendAll (aliceSay (.str greetingText))
  twimlAppend (.gather "speech" 5 "/webhook/process-speech" [plainSay firstPromptText])
  twimlAppend (.say (plainSay noInputText))

/-- The body of the start-of-call handler up to `res.type`. -/
def voiceBody (insert : StoreOutcome) (now : Nat) (body : WebhookBody) : Handler Unit :=
  tryCatch (voiceTry insert now body) fun _ => twimlAppend (.say (plainSay voiceApology))

/-- The handler of `POST /webhook/voice`, run on the table `calls`: the table afterwards and
the response sent. -/
def voiceWebhook (insert : StoreOutcome) (now : Nat) (body : WebhookBody)
    (calls : List CallRecord) : List CallRecord × Response :=
  let s := ((voiceBody insert now body).run.run { calls := calls, twiml := [] }).2
  (s.calls, { contentType := "text/xml", document := s.twiml })

/-! ## `POST /webhook/process-speech` -/

/-- The prompt spoken inside the second capture directive. -/
def secondPromptText : String := "Is there anything else I can help you with?"

/-- The closing line of a speech turn. -/
def closingText : String := "Thank you for calling. Have a great day!"

/-- The line spoken from the `catch` block of the speech-turn handler. -/
def speechApology : String := "I\x27m sorry, I had trouble understanding. Please try again."

/-- The `try` block of the speech-turn handler. -/
def processSpeechTry (openai : ChatRequest → ServiceOutcome) (update : StoreOutcome)
    (body : WebhookBody) : Handler Unit := do
  let aiResponse ← liftExcept (getAIResponse openai body.SpeechResult "")
  let _ ← supabaseUpdateCalls update
    { transcript := body.SpeechResult, ai_response := aiResponse } body.CallSid
  twimlAppendAll (aliceSay aiResponse)
  twimlAppend (.gather "speech" 5 "/webhook/process-speech" [plainSay secondPromptText])
  twimlAppend (.say (plainSay closingText))
  twimlAppend .hangup

/-- The body of the speech-turn handler up to `res.type`. -/
def processSpeechBody (openai : ChatRequest → ServiceOutcome) (update : StoreOutcome)
    (body : WebhookBody) : Handler Unit :=
  tryCatch (processSpeechTry openai update body) fun _ =>
    twimlAppend (.say (plainSay speechApology))

/-- The handler of `POST /webhook/process-speech`, run on the table `calls`: the table
afterwards and the response sent. -/
def processSpeechWebhook (openai : ChatRequest → ServiceOutcome) (update : StoreOutcome)
    (body : WebhookBody) (calls : List CallRecord) : List CallRecord × Response :=
  let s := ((processSpeechBody openai update body).run.run { calls := calls, twiml := [] }).2
  (s.calls, { contentType := "text/xml", document := s.twiml })

/-! ## Reading a document -/

/-- The texts of the top-level `<Say>` elements of a document, in order; a `<Say>` without
text contributes nothing. -/
def spokenTexts : List Verb → List String
  | [] => []
  | .say s :: rest =>
    match s.text with
    | some t => t :: spokenTexts rest
    | none => spokenTexts rest
  | _ :: rest => spokenTexts rest

/-- Whether a verb is a speech-capture directive (`<Gather>`). -/
def Verb.isGather : Verb → Bool
  | .gather _ _ _ _ => true
  | _ => false

/-- The document of a start-of-call turn whose `try` block ran to its end. -/
def voiceDocument : List Verb :=
  aliceSay (.str greetingText) ++
    [ .gather "speech" 5 "/webhook/process-speech" [plainSay firstPromptText],
      .say (plainSay noInputText) ]

/-- The document of a speech turn whose `try` block ran to its end with reply `r`. -/
def speechDocument (r : JsStr) : List Verb :=
  aliceSay r ++
    [ .gather "speech" 5 "/webhook/process-speech" [plainSay secondPromptText],
      .say (plainSay closingText),
      .hangup ]

/-! ## The notification sender -/

/-- The query parameters `sendWhatsAppMessage` passes to the messaging gateway; the API key
comes from the process environment and is left out. -/
structure GatewayRequest where
  phone : Option String
  text : String
deriving DecidableEq, Repr

/-- The result of the awaited `axios.get` on the messaging gateway: it resolves with a response
whose `data` is the gateway's payload, or rejects. -/
inductive GatewayOutcome where
  | resolved (data : JsStr)
  | rejected (message : String)
deriving DecidableEq, Repr

/-- A step of the notification sender: it may throw (a message), and every request that
reaches the gateway is recorded, in the order sent. -/
abbrev Sender := ExceptT String (StateM (List GatewayRequest))

/-- The awaited `axios.get` on the messaging gateway: the request is sent, then the call
resolves with the data of the response or rejects. -/
def axiosGet (gateway : GatewayRequest → GatewayOutcome) (request : GatewayRequest) :
    Sender JsStr := do
  modify fun sent => sent ++ [request]
  match gateway request with
  | .rejected e => throw e
  | .resolved data => pure data

/-- The `try` block of `sendWhatsAppMessage`. -/
def sendWhatsAppMessageTry (gateway : GatewayRequest → GatewayOutcome) (phone : Option String)
    (message : String) : Sender JsStr :=
  axiosGet gateway { phone := phone, text := message }

/-- The body of `sendWhatsAppMessage(phone, message)`, as a step. -/
def sendWhatsAppMessageStep (gateway : GatewayRequest → GatewayOutcome) (phone : Option String)
    (message : String) : Sender JsStr :=
  tryCatch (sendWhatsAppMessageTry gateway phone message) fun _ => pure .null

/-- The function `sendWhatsAppMessage(phone, message)`: `.ok v` when it returns `v`, `.error e`
when it throws `e`. -/
def sendWhatsAppMessage (gateway : GatewayRequest → GatewayOutcome) (phone : Option String)
    (message : String) : Except String JsStr :=
  ((sendWhatsAppMessageStep gateway phone message).run.run []).1

/-! ## JavaScript numbers -/

/-- A JavaScript number: `NaN`, an infinity with its sign, or a finite value. The finite values
the program meets are IEEE 754 doubles. The two zeros are one value here: nothing the program
writes (JSON, the text of a template) tells them apart. -/
inductive JsNum where
  | nan
  | infinity (negative : Bool)
  | finite (value : ℚ)
deriving DecidableEq, Repr

/-- A whole-number literal. -/
instance (n : Nat) : OfNat JsNum n := ⟨.finite n⟩

/-- Rounding to the nearest integer, a tie to the even one. -/
def roundHalfEven (y : ℚ) : ℤ :=
  if y - ⌊y⌋ < 1 / 2 then ⌊y⌋
  else if 1 / 2 < y - ⌊y⌋ then ⌊y⌋ + 1
  else if ⌊y⌋ % 2 = 0 then ⌊y⌋
  else ⌊y⌋ + 1

/-- The distance between neighbouring doubles around `x`: 52 binary places below the leading
one, and never below the smallest exponent, -1022. -/
def spacing (x : ℚ) : ℚ :=
  (2 : ℚ) ^ (max (Int.log 2 |x|) (-1022) - 52)

/-- The double nearest to the real number `x` (round to nearest, ties to even), an infinity
when the rounded value is out of range: the result of reading a numeric literal and of every
arithmetic operation. -/
def JsNum.ofRat (x : ℚ) : JsNum :=
  if x = 0 then .finite 0
  else if (2 : ℚ) ^ (1024 : ℕ) ≤ |(roundHalfEven (x / spacing x) : ℚ) * spacing x| then
    .infinity (decide (x < 0))
  else .finite (roundHalfEven (x / spacing x) * spacing x)

/-- The operator `a + b` on numbers. -/
def JsNum.add : JsNum → JsNum → JsNum
  | .finite a, .finite b => JsNum.ofRat (a + b)
  | .finite _, .infinity s => .infinity s
  | .infinity s, .finite _ => .infinity s
  | .infinity s, .infinity t => if s = t then .infinity s else .nan
  | _, _ => .nan

/-- The operator `a * b` on numbers. -/
def JsNum.mul : JsNum → JsNum → JsNum
  | .finite a, .finite b => JsNum.ofRat (a * b)
  | .finite a, .infinity s => if a = 0 then .nan else .infinity (s != decide (a < 0))
  | .infinity s, .finite b => if b = 0 then .nan else .infinity (s != decide (b < 0))
  | .infinity s, .infinity t => .infinity (s != t)
  | _, _ => .nan

/-- The operator `a / count` for the length `count` of an array (a whole number below
`2 ^ 32`, which is a double, and a zero that is positive). -/
def JsNum.divCount (a : JsNum) (count : Nat) : JsNum :=
  match a with
  | .nan => .nan
  | .infinity s => .infinity s
  | .finite q =>
    if count = 0 then (if q = 0 then .nan else .infinity (decide (q < 0)))
    else JsNum.ofRat (q / count)

/-- The expression `x || 0` for `x` a number or a missing value (`null`, `undefined`). -/
def orZero : Option JsNum → JsNum
  | none => 0
  | some .nan => 0
  | some (.finite q) => if q = 0 then 0 else .finite q
  | some x => x

/-- The function `Math.round`: the nearest integer, a half upwards. -/
def JsNum.round : JsNum → JsNum
  | .finite q => .finite (⌊q + 1 / 2⌋ : ℤ)
  | x => x

/-! ## The tables behind the REST routes -/

/-- One entry of the `items` list of an order request that is not `null`; a property the entry
does not carry reads as `undefined`. -/
structure OrderItem where
  name : JsStr
  quantity : Option JsNum
deriving DecidableEq, Repr

/-- One row of the `orders` table. The `items` column holds the text `JSON.stringify(items)`,
kept here as the list it encodes, an entry `none` being `null`; `id` and `created_at` are
filled by the store. -/
structure OrderRecord where
  id : String
  customer_phone : Option String
  items : Option (List (Option OrderItem))
  total : Option JsNum
  payment_intent_id : Option String
  status : String
  confirmation_number : String
  created_at : Nat
deriving DecidableEq, Repr

/-- A scalar of a JSON request body. -/
inductive JsVal where
  | null
  | bool (b : Bool)
  | num (n : Int)
  | str (s : String)
deriving DecidableEq, Repr

/-- One row of the `products` or the `faqs` table: the columns the store fills and the
columns taken from the request body. -/
structure Row where
  id : String
  created_at : Nat
  fields : List (String × JsVal)
deriving DecidableEq, Repr

/-- The two tables whose routes pass `req.body` to the store as it is. -/
inductive BodyTable where
  | products
  | faqs
deriving DecidableEq, Repr

/-- The tables of the hosted store. -/
structure Database where
  calls : List CallRecord
  orders : List OrderRecord
  products : List Row
  faqs : List Row
deriving DecidableEq, Repr

/-- The rows of `supabase.from(t)`. -/
def Database.rowsOf (db : Database) : BodyTable → List Row
  | .products => db.products
  | .faqs => db.faqs

/-- Replace the rows of `supabase.from(t)`. -/
def Database.withRows (db : Database) (t : BodyTable) (rows : List Row) : Database :=
  match t with
  | .products => { db with products := rows }
  | .faqs => { db with faqs := rows }

/-- The modifier `.order('created_at', \x7b ascending: false \x7d)`. -/
def newestFirst {α : Type} (created : α → Nat) (rows : List α) : List α :=
  rows.insertionSort fun a b => created b ≤ created a

/-- The columns of a row after `update(body)`: a property of the body replaces the column of
the same name. -/
def mergeFields (old body : List (String × JsVal)) : List (String × JsVal) :=
  body ++ old.filter fun kv => !(body.map Prod.fst).contains kv.1

/-! ## The REST handlers -/

/-- The JSON documents (and the other bodies) the handlers send. -/
inductive Body where
  | twiml (document : List Verb)
  | error (message : String)
  | calls (rows : List CallRecord)
  | orders (rows : List OrderRecord)
  | order (row : Option OrderRecord)
  | rows (rows : List Row)
  | row (r : Option Row)
  | success
  | orderPlaced (order : OrderRecord)
  | clientSecret (secret : String)
  | stats (totalCalls totalOrders : Nat) (totalRevenue avgCallDuration : JsNum)
  | file (path : String)
deriving DecidableEq, Repr

/-- The response a handler sends: the status set by `res.status` (200 when it is not called)
and the body. `Body.error m` is the object with the single property `error: m`,
`Body.success` the object with `success: true`, `Body.orderPlaced o` the object with
`success: true` and `order: o`; `Body.order none` and `Body.row none` stand for
`res.json(undefined)`. -/
structure HttpReply where
  status : Nat
  body : Body
deriving DecidableEq, Repr

/-- What a running REST handler can change: the tables, the reply sent so far, and the
requests sent to the messaging gateway so far. -/
structure ApiState where
  db : Database
  reply : Option HttpReply
  sent : List GatewayRequest
deriving DecidableEq, Repr

/-- A step of a REST handler: it may throw (a message), and the state reached so far is kept. -/
abbrev Api := ExceptT String (StateM ApiState)

/-- The value an awaited store call resolves with: its `data`, or its `error`. -/
inductive StoreResult (α : Type) where
  | data (a : α)
  | error (message : String)
deriving DecidableEq, Repr

/-- The `data` property of a resolved store call; `null` (here `none`) beside an `error`. -/
def StoreResult.data? {α : Type} : StoreResult α → Option α
  | .data a => some a
  | .error _ => none

/-- An awaited store call: when the store applies it, `run` gives the tables afterwards and
the data returned. -/
def storeCall {α : Type} (o : StoreOutcome) (run : Database → Database × α) :
    Api (StoreResult α) :=
  match o with
  | .ok => do
      let s ← get
      set { s with db := (run s.db).1 }
      pure (.data (run s.db).2)
  | .reportedError m => pure (.error m)
  | .thrown m => throw m

/-- The calls `res.json(body)` and `res.status(status).json(body)`. -/
def resJson (status : Nat) (body : Body) : Api Unit :=
  modify fun s => { s with reply := some { status := status, body := body } }

/-- The `catch` block shared by the REST handlers: status 500 and the message of the error. -/
def sendError (e : String) : Api Unit :=
  resJson 500 (.error e)

/-- The sum `orders.reduce((sum, order) => sum + (order.total || 0), 0)`. -/
def sumOfTotals (orders : List OrderRecord) : JsNum :=
  orders.foldl (fun sum order => sum.add (orZero order.total)) 0

/-- The sum `calls.reduce((sum, call) => sum + (call.duration || 0), 0)`; a stored duration is
read as the double nearest to it. -/
def sumOfDurations (calls : List CallRecord) : JsNum :=
  calls.foldl (fun sum call => sum.add (orZero (call.duration.map fun d => JsNum.ofRat d))) 0

/-- The body of `GET /api/stats` computed from the `data` of the two queries (`none` is `null`):
`calls?.length || 0`, `orders?.length || 0`, `orders?.reduce(...) || 0`, and
`Math.round(calls?.reduce(...) / totalCalls || 0)`; without `data` the sum is `undefined`,
and `undefined / 0` is `NaN`. -/
def statsBody (calls : Option (List CallRecord)) (orders : Option (List OrderRecord)) : Body :=
  .stats
    (match calls with
      | none => 0
      | some l => l.length)
    (match orders with
      | none => 0
      | some l => l.length)
    (match orders with
      | none => orZero none
      | some l => orZero (some (sumOfTotals l)))
    (match calls with
      | none => (orZero (some .nan)).round
      | some l => (orZero (some ((sumOfDurations l).divCount l.length))).round)

/-- The average the dashboard is meant to show, for whole numbers: `sum / count` rounded to the
nearest integer, a half upwards, and 0 when `count` is 0. -/
def roundedAverage (sum count : Nat) : Nat :=
  if count = 0 then 0 else (2 * sum + count) / (2 * count)

/-- The handler of `GET /api/stats`; it reads `data` only, never `error`. -/
def getStats (callsQuery ordersQuery : StoreOutcome) : Api Unit :=
  tryCatch (do
    let calls ← storeCall callsQuery fun db => (db, db.calls)
    let orders ← storeCall ordersQuery fun db => (db, db.orders)
    resJson 200 (statsBody calls.data? orders.data?)) sendError

/-- The handler of `GET /api/calls`. -/
def getCalls (query : StoreOutcome) : Api Unit :=
  tryCatch (do
    match ← storeCall query fun db => (db, newestFirst CallRecord.created_at db.calls) with
    | .error m => throw m
    | .data rows => resJson 200 (.calls rows)) sendError

/-- The handler of `GET /api/orders`. -/
def getOrders (query : StoreOutcome) : Api Unit :=
  tryCatch (do
    match ← storeCall query fun db => (db, newestFirst OrderRecord.created_at db.orders) with
    | .error m => throw m
    | .data rows => resJson 200 (.orders rows)) sendError

/-- The rows of `orders` after `update(\x7b status \x7d).eq('id', id)`; an `undefined` status is
dropped from the object, so nothing is changed. -/
def setOrderStatus (id : String) (status : Option String) (rows : List OrderRecord) :
    List OrderRecord :=
  rows.map fun o => if o.id = id then { o with status := status.getD o.status } else o

/-- The handler of `PUT /api/orders/:id`. -/
def putOrder (query : StoreOutcome) (id : String) (status : Option String) : Api Unit :=
  tryCatch (do
    match ← storeCall query fun db =>
        ({ db with orders := setOrderStatus id status db.orders },
          (setOrderStatus id status db.orders).filter fun o => o.id = id) with
    | .error m => throw m
    | .data rows => resJson 200 (.order rows.head?)) sendError

/-- The handler of `GET /api/products` and of `GET /api/faqs`. -/
def getRows (query : StoreOutcome) (t : BodyTable) : Api Unit :=
  tryCatch (do
    match ← storeCall query fun db => (db, newestFirst Row.created_at (db.rowsOf t)) with
    | .error m => throw m
    | .data rows => resJson 200 (.rows rows)) sendError

/-- The handler of `POST /api/products` and of `POST /api/faqs`; the store fills `id` and
`created_at` of the new row. -/
def postRow (query : StoreOutcome) (newId : String) (createdAt : Nat) (t : BodyTable)
    (body : List (String × JsVal)) : Api Unit :=
  tryCatch (do
    match ← storeCall query fun db =>
        (db.withRows t (db.rowsOf t ++ [{ id := newId, created_at := createdAt, fields := body }]),
          [({ id := newId, created_at := createdAt, fields := body } : Row)]) with
    | .error m => throw m
    | .data rows => resJson 200 (.row rows.head?)) sendError

/-- The rows after `update(body).eq('id', id)`. -/
def patchRows (id : String) (body : List (String × JsVal)) (rows : List Row) : List Row :=
  rows.map fun r => if r.id = id then { r with fields := mergeFields r.fields body } else r

/-- The handler of `PUT /api/products/:id` and of `PUT /api/faqs/:id`. -/
def putRow (query : StoreOutcome) (t : BodyTable) (id : String)
    (body : List (String × JsVal)) : Api Unit :=
  tryCatch (do
    match ← storeCall query fun db =>
        (db.withRows t (patchRows id body (db.rowsOf t)),
          (patchRows id body (db.rowsOf t)).filter fun r => r.id = id) with
    | .error m => throw m
    | .data rows => resJson 200 (.row rows.head?)) sendError

/-- The handler of `DELETE /api/products/:id` and of `DELETE /api/faqs/:id`. -/
def deleteRow (query : StoreOutcome) (t : BodyTable) (id : String) : Api Unit :=
  tryCatch (do
    match ← storeCall query fun db =>
        (db.withRows t ((db.rowsOf t).filter fun r => r.id ≠ id), ()) with
    | .error m => throw m
    | .data _ => resJson 200 .success) sendError

/-! ## Payments and orders -/

/-- The body of `POST /api/create-payment`; `amount` is a number or is missing. -/
structure PaymentBody where
  amount : Option JsNum
  currency : Option String
  orderId : Option String
deriving DecidableEq, Repr

/-- The argument of `stripeClient.paymentIntents.create`. -/
structure PaymentRequest where
  amount : JsNum
  currency : String
  orderId : Option String
deriving DecidableEq, Repr

/-- The expression `amount * 100`; a missing amount is `undefined`, and the product `NaN`. -/
def timesHundred : Option JsNum → JsNum
  | none => .nan
  | some amount => amount.mul 100

/-- The result of the awaited payments call. -/
inductive PaymentOutcome where
  | resolved (client_secret : String)
  | rejected (message : String)
deriving DecidableEq, Repr

/-- The handler of `POST /api/create-payment`. -/
def createPayment (stripe : PaymentRequest → PaymentOutcome) (body : PaymentBody) : Api Unit :=
  tryCatch (do
    match stripe
        { amount := timesHundred body.amount
          currency := body.currency.getD "usd"
          orderId := body.orderId } with
    | .rejected e => throw e
    | .resolved secret => resJson 200 (.clientSecret secret)) sendError

/-- The body of `POST /api/process-order`; `items` is `none` when the request carries no list,
and an entry `none` of the list is `null`; `total` is a number, or `none` when the request
carries no total. -/
structure OrderBody where
  customerPhone : Option String
  items : Option (List (Option OrderItem))
  total : Option JsNum
  paymentIntentId : Option String
deriving DecidableEq, Repr

/-- A value of a template literal that is a string, `null` or `undefined`. -/
def JsStr.inTemplate : JsStr → String
  | .undefined => "undefined"
  | .null => "null"
  | .str s => s

/-- A value of a template literal that is a number or `undefined`; `numberText` is the
conversion of a number to text (`Number.prototype.toString`). -/
def numberInTemplate (numberText : JsNum → String) : Option JsNum → String
  | none => "undefined"
  | some n => numberText n

/-- The row `POST /api/process-order` inserts; `now` is `Date.now()`, a whole number of
milliseconds, written in plain decimal digits. -/
def newOrderRecord (body : OrderBody) (now : Nat) (newId : String) (createdAt : Nat) :
    OrderRecord :=
  { id := newId
    customer_phone := body.customerPhone
    items := body.items
    total := body.total
    payment_intent_id := body.paymentIntentId
    status := "confirmed"
    confirmation_number := "ORD-" ++ toString now
    created_at := createdAt }

/-- The callback of `items.map`: the text of one entry; reading `name` of `null` throws. -/
def itemText (numberText : JsNum → String) : Option OrderItem → Except String String
  | none => throw "Cannot read properties of null (reading \x27name\x27)"
  | some item =>
    pure (item.name.inTemplate ++ " x" ++ numberInTemplate numberText item.quantity)

/-- The call `items.map(...)` on a list: the callback applied to the entries from the first
on. -/
def itemTexts (numberText : JsNum → String) : List (Option OrderItem) → Except String (List String)
  | [] => pure []
  | item :: rest => do
    let text ← itemText numberText item
    let texts ← itemTexts numberText rest
    pure (text :: texts)

/-- The text of the confirmation message, or what evaluating the template throws. -/
def confirmationMessage (numberText : JsNum → String) (confirmationNumber : String)
    (total : Option JsNum) (items : Option (List (Option OrderItem))) : Except String String := do
  let entries ← match items with
    | none => throw "Cannot read properties of undefined (reading \x27map\x27)"
    | some l => pure l
  let texts ← itemTexts numberText entries
  pure ("Order Confirmed! \nConfirmation #: " ++ confirmationNumber ++
    "\nTotal: $" ++ numberInTemplate numberText total ++
    "\nItems: " ++ ", ".intercalate texts ++
    "\nThank you for your order!")

/-- An awaited call of the notification sender inside a REST handler: what it sends to the
gateway is added to `sent`. -/
def awaitSender {α : Type} (step : Sender α) : Api α :=
  ExceptT.mk fun s => ((step.run.run s.sent).1, { s with sent := (step.run.run s.sent).2 })

/-- The `try` block of `POST /api/process-order`. -/
def processOrderTry (query : StoreOutcome) (gateway : GatewayRequest → GatewayOutcome)
    (numberText : JsNum → String) (now : Nat) (newId : String) (createdAt : Nat)
    (body : OrderBody) : Api Unit := do
  match ← storeCall query fun db =>
      ({ db with orders := db.orders ++ [newOrderRecord body now newId createdAt] },
        [newOrderRecord body now newId createdAt]) with
  | .error m => throw m
  | .data order =>
    let first ← match order.head? with
      | none => throw "Cannot read properties of undefined (reading \x27confirmation_number\x27)"
      | some o => pure o
    let message ← liftExcept
      (confirmationMessage numberText first.confirmation_number body.total body.items)
    let _ ← awaitSender (sendWhatsAppMessageStep gateway body.customerPhone message)
    resJson 200 (.orderPlaced first)

/-- The handler of `POST /api/process-order`. -/
def processOrder (query : StoreOutcome) (gateway : GatewayRequest → GatewayOutcome)
    (numberText : JsNum → String) (now : Nat) (newId : String) (createdAt : Nat)
    (body : OrderBody) : Api Unit :=
  tryCatch (processOrderTry query gateway numberText now newId createdAt body) sendError

/-- The handler of `GET *`. -/
def serveApp : Api Unit :=
  resJson 200 (.file "client/dist/index.html")

/-! ## The routes of the server -/

/-- A request, by the route that serves it. -/
inductive Request where
  | voice (body : WebhookBody)
  | processSpeech (body : WebhookBody)
  | getStats
  | getCalls
  | getOrders
  | putOrder (id : String) (status : Option String)
  | getRows (t : BodyTable)
  | postRow (t : BodyTable) (body : List (String × JsVal))
  | putRow (t : BodyTable) (id : String) (body : List (String × JsVal))
  | deleteRow (t : BodyTable) (id : String)
  | createPayment (body : PaymentBody)
  | processOrder (body : OrderBody)
  | app (path : String)
deriving DecidableEq, Repr

/-- What the collaborators do while one request is served: the outcome of the first and of the
second awaited store call, the three hosted services, the clock (`Date.now()`), the `id` and
`created_at` the store gives a new row, and the text the language gives a number
(`Number.prototype.toString`). -/
structure Env where
  store : StoreOutcome
  secondStore : StoreOutcome
  openai : ChatRequest → ServiceOutcome
  gateway : GatewayRequest → GatewayOutcome
  stripe : PaymentRequest → PaymentOutcome
  now : Nat
  newId : String
  createdAt : Nat
  numberText : JsNum → String

/-- Run a REST handler on the tables `db`: `.error e` when the exception `e` escapes the
handler, else the tables afterwards and the reply sent (if any). -/
def runApi (h : Api Unit) (db : Database) : Except String (Database × Option HttpReply) :=
  match h.run.run { db := db, reply := none, sent := [] } with
  | (.ok _, s) => .ok (s.db, s.reply)
  | (.error e, _) => .error e

/-- The requests that reach the messaging gateway while a REST handler runs on the tables
`db`, in the order sent. -/
def gatewayRequests (h : Api Unit) (db : Database) : List GatewayRequest :=
  (h.run.run { db := db, reply := none, sent := [] }).2.sent

/-- Run the body of a webhook handler on the tables `db` and send the document
(`res.type('text/xml'); res.send(twiml.toString())`). -/
def runWebhook (h : Handler Unit) (db : Database) : Except String (Database × Option HttpReply) :=
  match h.run.run { calls := db.calls, twiml := [] } with
  | (.ok _, s) => .ok ({ db with calls := s.calls }, some { status := 200, body := .twiml s.twiml })
  | (.error e, _) => .error e

/-- The server: the handler of the route of the request, run on the tables `db`. -/
def handle (env : Env) (req : Request) (db : Database) :
    Except String (Database × Option HttpReply) :=
  match req with
  | .voice body => runWebhook (voiceBody env.store env.createdAt body) db
  | .processSpeech body => runWebhook (processSpeechBody env.openai env.store body) db
  | .getStats => runApi (getStats env.store env.secondStore) db
  | .getCalls => runApi (getCalls env.store) db
  | .getOrders => runApi (getOrders env.store) db
  | .putOrder id status => runApi (putOrder env.store id status) db
  | .getRows t => runApi (getRows env.store t) db
  | .postRow t body => runApi (postRow env.store env.newId env.createdAt t body) db
  | .putRow t id body => runApi (putRow env.store t id body) db
  | .deleteRow t id => runApi (deleteRow env.store t id) db
  | .createPayment body => runApi (createPayment env.stripe body) db
  | .processOrder body =>
    runApi (processOrder env.store env.gateway env.numberText env.now env.newId env.createdAt
      body) db
  | .app _ => runApi serveApp db

/-- The routes that list, create, update or delete rows of one table: `GET /api/calls`,
`GET` and `PUT` on orders, and the four routes of products and of faqs. -/
def Request.isCrud : Request → Bool
  | .getCalls => true
  | .getOrders => true
  | .putOrder _ _ => true
  | .getRows _ => true
  | .postRow _ _ => true
  | .putRow _ _ _ => true
  | .deleteRow _ _ => true
  | _ => false

/-! ## Call records kept -/

/-- Two rows of `calls` that are the same record: they agree on everything but the transcript
and the AI response. -/
def sameCall (old new : CallRecord) : Prop :=
  new.caller_number = old.caller_number ∧ new.call_sid = old.call_sid ∧
    new.status = old.status ∧ new.duration = old.duration ∧ new.created_at = old.created_at

/-- Every record of `before` is still a record of `after`, at its place. -/
def CallsKept (before after : List CallRecord) : Prop :=
  before.length ≤ after.length ∧ List.Forall₂ sameCall before (after.take before.length)

/-- A handler step that writes nothing to the `calls` table. -/
def LeavesCalls {α : Type} (h : Handler α) : Prop :=
  ∀ s, (h.run.run s).2.calls = s.calls

/-! ## The call log of the dashboard (`CallLogs.jsx`) -/

/-- The method `s.includes(t)`: the text `t` occurs in `s` as one contiguous piece. -/
def includes (s t : String) : Bool :=
  decide (t.data <:+: s.data)

/-- The function `formatDuration(seconds)` of `CallLogs`; `none` is a missing value. -/
def formatDuration (seconds : Option Nat) : String :=
  match seconds with
  | none => "0s"
  | some s =>
    if s = 0 then "0s"
    else if s / 60 > 0 then toString (s / 60) ++ "m " ++ toString (s % 60) ++ "s"
    else toString (s % 60) ++ "s"

/-- The value `matchesSearch` of the filter of `CallLogs`, as the filter reads it (an
`undefined` counts as false); `toLowerCase` is the string method of that name. -/
def matchesSearch (toLowerCase : String → String) (searchTerm : String) (call : CallRecord) :
    Bool :=
  (match call.caller_number with
    | none => false
    | some number => includes number searchTerm) ||
  (match call.transcript with
    | none => false
    | some transcript => includes (toLowerCase transcript) (toLowerCase searchTerm))

/-- The value `matchesStatus` of the filter of `CallLogs`. -/
def matchesStatus (statusFilter : String) (call : CallRecord) : Bool :=
  statusFilter == "all" || call.status == statusFilter

/-- The list `filteredCalls` of `CallLogs`, from the state `calls`, `searchTerm` and
`statusFilter`. -/
def filteredCalls (toLowerCase : String → String) (calls : List CallRecord)
    (searchTerm statusFilter : String) : List CallRecord :=
  calls.filter fun call =>
    matchesSearch toLowerCase searchTerm call && matchesStatus statusFilter call

/-- Lower-casing of the letters `A` to `Z`, for the examples. -/
def asciiLowerCase (s : String) : String :=
  String.mk (s.data.map Char.toLower)

/-! ## Sample requests -/

/-- A start-of-call request. -/
def sampleStart : WebhookBody :=
  { From := some "+15551234567", CallSid := some "CA123", SpeechResult := none }

/-- A speech turn of the same call. -/
def sampleTurn : WebhookBody :=
  { From := some "+15551234567", CallSid := some "CA123",
    SpeechResult := some "what are your hours" }

/-- A later speech turn of the same call. -/
def sampleSecondTurn : WebhookBody :=
  { From := some "+15551234567", CallSid := some "CA123",
    SpeechResult := some "where are you located" }

/-- A speech turn carrying a call id no start-of-call request announced. -/
def sampleStrayTurn : WebhookBody :=
  { From := some "+15551234567", CallSid := some "CA999",
    SpeechResult := some "what are your hours" }

/-- The row a successful start of the sample call stores. -/
def sampleRecord : CallRecord := newCallRecord sampleStart 0

/-- A text-generation service that answers every request with one choice holding `content`. -/
def answering (content : JsStr) : ChatRequest → ServiceOutcome :=
  fun _ => .resolved { choices := some [{ message := some { content := content } }] }

/-- A text-generation service whose answer depends on the user message of the request. -/
def sampleService : ChatRequest → ServiceOutcome := fun req =>
  match req.messages with
  | [_, m] =>
    if m.content = some "what are your hours" then answering (.str "We\x27re open 9 to 5.") req
    else answering (.str "We are at 1 Main Street.") req
  | _ => .rejected "400 invalid request"

/-- Tables holding the record of the sample call, one order and one product. -/
def sampleDatabase : Database :=
  { calls := [sampleRecord]
    orders :=
      [{ id := "7", customer_phone := some "+15551234567", items := some [], total := some 30,
         payment_intent_id := none, status := "confirmed", confirmation_number := "ORD-1",
         created_at := 5 }]
    products := [{ id := "1", created_at := 3, fields := [("name", .str "Tea")] }]
    faqs := [] }

/-- The text of a whole number with fewer than 22 digits, for the examples. -/
def wholeNumberText : JsNum → String
  | .nan => "NaN"
  | .infinity false => "Infinity"
  | .infinity true => "-Infinity"
  | .finite q => toString q.num

/-- Collaborators that all work: the store applies every call, the gateway delivers, the
payments API creates the intent. -/
def sampleEnv : Env :=
  { store := .ok
    secondStore := .ok
    openai := sampleService
    gateway := fun _ => .resolved (.str "Message queued")
    stripe := fun _ => .resolved "pi_1_secret_2"
    now := 1700000000000
    newId := "42"
    createdAt := 9
    numberText := wholeNumberText }

/-- An order request with two items. -/
def sampleOrder : OrderBody :=
  { customerPhone := some "+15551234567"
    items := some [some { name := .str "Tea", quantity := some 2 },
      some { name := .str "Cup", quantity := some 1 }]
    total := some 12
    paymentIntentId := some "pi_1" }

/-- The same order request without its `items` list. -/
def sampleOrderWithoutItems : OrderBody :=
  { sampleOrder with items := none }

/-- The same order request with `null` as its second item. -/
def sampleOrderWithNullItem : OrderBody :=
  { sampleOrder with items := some [some { name := .str "Tea", quantity := some 2 }, none] }

/-- An order row with the given total. -/
def orderOf (total : Option JsNum) : OrderRecord :=
  { id := "1", customer_phone := none, items := some [], total := total,
    payment_intent_id := none, status := "confirmed", confirmation_number := "ORD-1",
    created_at := 1 }

/-- A call row with the given duration. -/
def callOf (duration : Option Nat) : CallRecord :=
  { sampleRecord with duration := duration }

/-! ## Basic facts -/

/-- The reply generator returns a value for every outcome of the service. -/
theorem getAIResponse_returns (openai : ChatRequest → ServiceOutcome) (u : Option String)
    (context : String) : ∃ r, getAIResponse openai u context = .ok r := by
  unfold getAIResponse
  cases h : getAIResponseTry openai u context with
  | error e => exact ⟨.str aiApology, rfl⟩
  | ok v => exact ⟨v, rfl⟩

/-- The value `getAIResponse` returns, by outcome of the completion call. -/
theorem getAIResponse_cases (openai : ChatRequest → ServiceOutcome)
    (u : Option String) (context : String) :
    (∀ e, openai (chatRequest u context) = .rejected e →
      getAIResponse openai u context = .ok (.str aiApology)) ∧
    (openai (chatRequest u context) = .resolved { choices := none } →
      getAIResponse openai u context = .ok (.str aiApology)) ∧
    (openai (chatRequest u context) = .resolved { choices := some [] } →
      getAIResponse openai u context = .ok (.str aiApology)) ∧
    (∀ rest, openai (chatRequest u context)
        = .resolved { choices := some ({ message := none } :: rest) } →
      getAIResponse openai u context = .ok (.str aiApology)) ∧
    (∀ m rest, openai (chatRequest u context)
        = .resolved { choices := some ({ message := some m } :: rest) } →
      getAIResponse openai u context = .ok m.content) := by
  refine ⟨?_, ?_, ?_, ?_, ?_⟩
  · intro e h
    simp only [getAIResponse, getAIResponseTry, h]
    rfl
  · intro h
    simp only [getAIResponse, getAIResponseTry, h]
    rfl
  · intro h
    simp only [getAIResponse, getAIResponseTry, h]
    rfl
  · intro rest h
    simp only [getAIResponse, getAIResponseTry, h]
    rfl
  · intro m rest h
    simp only [getAIResponse, getAIResponseTry, h]
    rfl

/-- The start-of-call handler, outcome by outcome of the insert. -/
theorem voiceWebhook_eq (insert : StoreOutcome) (now : Nat) (body : WebhookBody)
    (calls : List CallRecord) :
    voiceWebhook insert now body calls =
      match insert with
      | .ok =>
        (calls ++ [newCallRecord body now], { contentType := "text/xml", document := voiceDocument })
      | .reportedError _ => (calls, { contentType := "text/xml", document := voiceDocument })
      | .thrown _ =>
        (calls, { contentType := "text/xml", document := [.say (plainSay voiceApology)] }) := by
  cases insert <;> rfl

/-- The speech-turn handler, outcome by outcome of the update, given the reply `r` that the
reply generator returned. -/
theorem processSpeechWebhook_eq (openai : ChatRequest → ServiceOutcome) (update : StoreOutcome)
    (body : WebhookBody) (calls : List CallRecord) (r : JsStr)
    (hr : getAIResponse openai body.SpeechResult "" = .ok r) :
    processSpeechWebhook openai update body calls =
      match update with
      | .ok =>
        (updateRows { transcript := body.SpeechResult, ai_response := r } body.CallSid calls,
          { contentType := "text/xml", document := speechDocument r })
      | .reportedError _ => (calls, { contentType := "text/xml", document := speechDocument r })
      | .thrown _ =>
        (calls, { contentType := "text/xml", document := [.say (plainSay speechApology)] }) := by
  simp only [processSpeechWebhook, processSpeechBody, processSpeechTry, hr]
  cases r <;> cases update <;> rfl

/-- A speech turn whose update is applied leaves no matching row with older values: every row
of the new table with the call id of the request carries the turn's utterance and reply, and
the rows with that call id are the patched rows of the old table. -/
theorem updateRows_matching (u r c : String) (calls : List CallRecord) (rec : CallRecord)
    (hrec : rec ∈ updateRows { transcript := some u, ai_response := .str r } (some c) calls)
    (hc : rec.call_sid = some c) : rec.transcript = some u ∧ rec.ai_response = some r := by
  simp only [updateRows, List.mem_map] at hrec
  obtain ⟨r0, _, h0⟩ := hrec
  by_cases hm : eqCallSid (some c) r0 = true
  · rw [if_pos hm] at h0
    subst h0
    exact ⟨rfl, rfl⟩
  · rw [if_neg hm] at h0
    subst h0
    exact absurd (by simp [eqCallSid, hc]) hm

/-- A row with the call id of the request is still there, by its call id, after the update. -/
theorem updateRows_keeps_call_sid (p : CallPatch) (v : Option String) (calls : List CallRecord)
    (c : Option String) (h : ∃ rec ∈ calls, rec.call_sid = c) :
    ∃ rec ∈ updateRows p v calls, rec.call_sid = c := by
  obtain ⟨r0, hmem, hc⟩ := h
  refine ⟨if eqCallSid v r0 then p.apply r0 else r0, ?_, ?_⟩
  · exact List.mem_map.mpr ⟨r0, hmem, rfl⟩
  · by_cases hm : eqCallSid v r0 = true
    · rw [if_pos hm]; exact hc
    · rw [if_neg hm]; exact hc

/-- An update that matches no row leaves the table as it was. -/
theorem updateRows_unmatched (p : CallPatch) (v : Option String) (calls : List CallRecord)
    (hno : ∀ rec ∈ calls, eqCallSid v rec = false) : updateRows p v calls = calls := by
  unfold updateRows
  conv_rhs => rw [← List.map_id calls]
  apply List.map_congr_left
  intro rec hrec
  simp [hno rec hrec]

/-- The notification sender sends its one request to the gateway and returns the data of the
response, or `null` when the call is rejected. -/
theorem sendWhatsAppMessageStep_run (gateway : GatewayRequest → GatewayOutcome)
    (phone : Option String) (message : String) (sent : List GatewayRequest) :
    (sendWhatsAppMessageStep gateway phone message).run.run sent =
      (.ok (match gateway { phone := phone, text := message } with
          | .resolved data => data
          | .rejected _ => .null),
        sent ++ [{ phone := phone, text := message }]) := by
  unfold sendWhatsAppMessageStep sendWhatsAppMessageTry axiosGet
  cases h : gateway { phone := phone, text := message } with
  | resolved data => simp only [h]; rfl
  | rejected e => simp only [h]; rfl

/-- The notification sender returns a value for every outcome of the gateway. -/
theorem sendWhatsAppMessage_returns (gateway : GatewayRequest → GatewayOutcome)
    (phone : Option String) (message : String) :
    ∃ v, sendWhatsAppMessage gateway phone message = .ok v := by
  unfold sendWhatsAppMessage
  rw [sendWhatsAppMessageStep_run]
  exact ⟨_, rfl⟩

/-- The start-of-call route in terms of `voiceWebhook`. -/
theorem handle_voice (env : Env) (body : WebhookBody) (db : Database) :
    handle env (.voice body) db =
      .ok ({ db with calls := (voiceWebhook env.store env.createdAt body db.calls).1 },
        some { status := 200
               body := .twiml (voiceWebhook env.store env.createdAt body db.calls).2.document }) := by
  obtain ⟨store, second, openai, gateway, stripe, now, newId, createdAt, numberText⟩ := env
  cases store <;> rfl

/-- The speech-turn route in terms of `processSpeechWebhook`. -/
theorem handle_processSpeech (env : Env) (body : WebhookBody) (db : Database) :
    handle env (.processSpeech body) db =
      .ok ({ db with calls := (processSpeechWebhook env.openai env.store body db.calls).1 },
        some { status := 200
               body := .twiml
                 (processSpeechWebhook env.openai env.store body db.calls).2.document }) := by
  obtain ⟨store, second, openai, gateway, stripe, now, newId, createdAt, numberText⟩ := env
  obtain ⟨r, hr⟩ := getAIResponse_returns openai body.SpeechResult ""
  simp only [handle, runWebhook, processSpeechWebhook, processSpeechBody, processSpeechTry, hr]
  cases store <;> rfl

/-- The texts of a list without `null` entries. -/
theorem itemTexts_map_some (numberText : JsNum → String) (items : List OrderItem) :
    itemTexts numberText (items.map some) =
      .ok (items.map fun item =>
        item.name.inTemplate ++ " x" ++ numberInTemplate numberText item.quantity) := by
  induction items with
  | nil => rfl
  | cons item rest ih =>
    simp only [List.map_cons, itemTexts, itemText, ih]
    rfl

/-- The callback of `items.map` returns for every entry only when no entry is `null`. -/
theorem itemTexts_ok (numberText : JsNum → String) (entries : List (Option OrderItem))
    (texts : List String) (h : itemTexts numberText entries = .ok texts) :
    ∃ items : List OrderItem, entries = items.map some := by
  induction entries generalizing texts with
  | nil => exact ⟨[], rfl⟩
  | cons entry rest ih =>
    cases entry with
    | none => exact absurd h (by simp [itemTexts, itemText, bind, Except.bind, throw, throwThe, MonadExceptOf.throw])
    | some item =>
      cases hrest : itemTexts numberText rest with
      | error e =>
        exact absurd h (by simp [itemTexts, itemText, hrest, bind, Except.bind, pure, Except.pure])
      | ok restTexts =>
        obtain ⟨items, hitems⟩ := ih restTexts hrest
        exact ⟨item :: items, by rw [hitems]; rfl⟩

/-- The confirmation message of a list without `null` entries. -/
theorem confirmationMessage_map_some (numberText : JsNum → String) (confirmationNumber : String)
    (total : Option JsNum) (items : List OrderItem) :
    confirmationMessage numberText confirmationNumber total (some (items.map some)) =
      .ok ("Order Confirmed! \nConfirmation #: " ++ confirmationNumber ++
        "\nTotal: $" ++ numberInTemplate numberText total ++
        "\nItems: " ++ ", ".intercalate (items.map fun item =>
          item.name.inTemplate ++ " x" ++ numberInTemplate numberText item.quantity) ++
        "\nThank you for your order!") := by
  simp only [confirmationMessage, pure_bind, itemTexts_map_some]
  rfl

/-- The template of the confirmation message evaluates only for a list without `null`
entries. -/
theorem confirmationMessage_ok (numberText : JsNum → String) (confirmationNumber : String)
    (total : Option JsNum) (entries : Option (List (Option OrderItem))) (message : String)
    (h : confirmationMessage numberText confirmationNumber total entries = .ok message) :
    ∃ items : List OrderItem, entries = some (items.map some) := by
  cases entries with
  | none => exact absurd h (by simp [confirmationMessage, bind, Except.bind, throw, throwThe, MonadExceptOf.throw])
  | some l =>
    cases hl : itemTexts numberText l with
    | error e =>
      exact absurd h (by simp [confirmationMessage, hl, bind, Except.bind, pure, Except.pure])
    | ok texts =>
      obtain ⟨items, hitems⟩ := itemTexts_ok numberText l texts hl
      exact ⟨items, by rw [hitems]⟩

/-- The `try` block of the order route when the store applies the insert. -/
theorem processOrderTry_ok (gateway : GatewayRequest → GatewayOutcome)
    (numberText : JsNum → String) (now : Nat) (newId : String) (createdAt : Nat)
    (body : OrderBody) :
    processOrderTry .ok gateway numberText now newId createdAt body =
      (do
        let _ ← storeCall .ok fun db =>
          ({ db with orders := db.orders ++ [newOrderRecord body now newId createdAt] },
            [newOrderRecord body now newId createdAt])
        let message ← liftExcept (confirmationMessage numberText
          (newOrderRecord body now newId createdAt).confirmation_number body.total body.items)
        let _ ← awaitSender (sendWhatsAppMessageStep gateway body.customerPhone message)
        resJson 200 (.orderPlaced (newOrderRecord body now newId createdAt))) :=
  rfl

/-- The order route when the store applies the insert: the order is stored; the reply is an
error when the template of the message throws, and else the message is sent to the gateway and
the reply is the success object, whatever the gateway answers. -/
theorem runApi_processOrder_ok (gateway : GatewayRequest → GatewayOutcome)
    (numberText : JsNum → String) (now : Nat) (newId : String) (createdAt : Nat)
    (body : OrderBody) (db : Database) :
    runApi (processOrder .ok gateway numberText now newId createdAt body) db =
      .ok ({ db with orders := db.orders ++ [newOrderRecord body now newId createdAt] },
        some (match confirmationMessage numberText
            (newOrderRecord body now newId createdAt).confirmation_number body.total
            body.items with
          | .error e => { status := 500, body := .error e }
          | .ok _ =>
            { status := 200
              body := .orderPlaced (newOrderRecord body now newId createdAt) })) ∧
    gatewayRequests (processOrder .ok gateway numberText now newId createdAt body) db =
      (match confirmationMessage numberText
          (newOrderRecord body now newId createdAt).confirmation_number body.total
          body.items with
        | .error _ => []
        | .ok message => [{ phone := body.customerPhone, text := message }]) := by
  unfold processOrder
  rw [processOrderTry_ok]
  cases hm : confirmationMessage numberText
      (newOrderRecord body now newId createdAt).confirmation_number body.total body.items with
  | error e => exact ⟨rfl, rfl⟩
  | ok message =>
    simp only [awaitSender, sendWhatsAppMessageStep_run]
    exact ⟨rfl, rfl⟩

/-- The payment route: the reply is decided by what the payments API answers to the one
request it is sent. -/
theorem handle_createPayment (env : Env) (body : PaymentBody) (db : Database) :
    handle env (.createPayment body) db =
      match env.stripe
          { amount := timesHundred body.amount
            currency := body.currency.getD "usd"
            orderId := body.orderId } with
      | .resolved secret => .ok (db, some { status := 200, body := .clientSecret secret })
      | .rejected e => .ok (db, some { status := 500, body := .error e }) := by
  simp only [handle, createPayment]
  cases env.stripe
    { amount := timesHundred body.amount
      currency := body.currency.getD "usd"
      orderId := body.orderId } <;> rfl

/-- The payment route, with the amount requested written out. -/
theorem createPayment_reply (env : Env) (body : PaymentBody) (db : Database) (amount : JsNum)
    (h : timesHundred body.amount = amount) :
    handle env (.createPayment body) db =
      match env.stripe
          { amount := amount
            currency := body.currency.getD "usd"
            orderId := body.orderId } with
      | .resolved secret => .ok (db, some { status := 200, body := .clientSecret secret })
      | .rejected e => .ok (db, some { status := 500, body := .error e }) := by
  subst h
  exact handle_createPayment env body db

/-- Every route but the two webhooks sends a reply, lets no exception escape, and leaves the
`calls` table as it was. -/
theorem handle_rest (env : Env) (req : Request) (db : Database)
    (hv : ∀ b, req ≠ .voice b) (hs : ∀ b, req ≠ .processSpeech b) :
    ∃ db' reply, handle env req db = .ok (db', some reply) ∧ db'.calls = db.calls := by
  obtain ⟨store, second, openai, gateway, stripe, now, newId, createdAt, numberText⟩ := env
  cases req with
  | voice b => exact absurd rfl (hv b)
  | processSpeech b => exact absurd rfl (hs b)
  | getStats => cases store <;> cases second <;> exact ⟨_, _, rfl, rfl⟩
  | getCalls => cases store <;> exact ⟨_, _, rfl, rfl⟩
  | getOrders => cases store <;> exact ⟨_, _, rfl, rfl⟩
  | putOrder id status => cases store <;> exact ⟨_, _, rfl, rfl⟩
  | getRows t => cases store <;> exact ⟨_, _, rfl, rfl⟩
  | postRow t body => cases store <;> cases t <;> exact ⟨_, _, rfl, rfl⟩
  | putRow t id body => cases store <;> cases t <;> exact ⟨_, _, rfl, rfl⟩
  | deleteRow t id => cases store <;> cases t <;> exact ⟨_, _, rfl, rfl⟩
  | createPayment body =>
    cases h : stripe
      { amount := timesHundred body.amount
        currency := body.currency.getD "usd"
        orderId := body.orderId } with
    | resolved secret =>
      refine ⟨db, { status := 200, body := .clientSecret secret }, ?_, rfl⟩
      simp only [handle, createPayment, h]
      rfl
    | rejected e =>
      refine ⟨db, { status := 500, body := .error e }, ?_, rfl⟩
      simp only [handle, createPayment, h]
      rfl
  | processOrder body =>
    cases store with
    | ok => exact ⟨_, _, (runApi_processOrder_ok gateway numberText now newId createdAt body db).1, rfl⟩
    | reportedError m => exact ⟨_, _, rfl, rfl⟩
    | thrown m => exact ⟨_, _, rfl, rfl⟩
  | app path => exact ⟨_, _, rfl, rfl⟩

/-- A row is the same record as itself. -/
theorem sameCall_refl (r : CallRecord) : sameCall r r :=
  ⟨rfl, rfl, rfl, rfl, rfl⟩

/-- The update of a speech turn relates every row to a row that is the same record, and to
itself when the filter does not match it. -/
theorem updateRows_frame (p : CallPatch) (v : Option String) (calls : List CallRecord) :
    List.Forall₂ (fun old new => sameCall old new ∧ (eqCallSid v old = false → new = old))
      calls (updateRows p v calls) := by
  unfold updateRows
  rw [List.forall₂_map_right_iff, List.forall₂_same]
  intro r _
  by_cases hm : eqCallSid v r = true
  · rw [if_pos hm]
    exact ⟨⟨rfl, rfl, rfl, rfl, rfl⟩, fun h => absurd hm (by simp [h])⟩
  · rw [if_neg hm]
    exact ⟨sameCall_refl r, fun _ => rfl⟩

/-- A table with rows appended keeps every record it had. -/
theorem callsKept_append (calls extra : List CallRecord) : CallsKept calls (calls ++ extra) := by
  refine ⟨by simp, ?_⟩
  rw [List.take_left, List.forall₂_same]
  exact fun r _ => sameCall_refl r

/-- A table whose rows were updated keeps every record it had. -/
theorem callsKept_updateRows (p : CallPatch) (v : Option String) (calls : List CallRecord) :
    CallsKept calls (updateRows p v calls) := by
  have hlen : (updateRows p v calls).length = calls.length := by simp [updateRows]
  refine ⟨by rw [hlen], ?_⟩
  rw [← hlen, List.take_length]
  exact (updateRows_frame p v calls).imp fun _ _ h => h.1

/-- The table after a speech turn: the update applied, or the table as it was. -/
theorem processSpeechWebhook_calls (openai : ChatRequest → ServiceOutcome)
    (update : StoreOutcome) (body : WebhookBody) (calls : List CallRecord) :
    ∃ r, getAIResponse openai body.SpeechResult "" = .ok r ∧
      (processSpeechWebhook openai update body calls).1 =
        if update = .ok then
          updateRows { transcript := body.SpeechResult, ai_response := r } body.CallSid calls
        else calls := by
  obtain ⟨r, hr⟩ := getAIResponse_returns openai body.SpeechResult ""
  refine ⟨r, hr, ?_⟩
  rw [processSpeechWebhook_eq openai update body calls r hr]
  cases update <;> rfl

/-- The rounded average is the quotient plus one half, rounded down: `Math.round`. -/
theorem roundedAverage_eq_floor (sum count : Nat) (h : 0 < count) :
    roundedAverage sum count = ⌊(sum : ℚ) / count + 1 / 2⌋₊ := by
  have hc : (count : ℚ) ≠ 0 := by exact_mod_cast h.ne'
  have hq : (sum : ℚ) / count + 1 / 2 = ((2 * sum + count : ℕ) : ℚ) / ((2 * count : ℕ) : ℚ) := by
    push_cast
    field_simp
    ring
  rw [hq, Nat.floor_div_eq_div]
  simp [roundedAverage, h.ne']

/-! ## Facts about numbers -/

/-- An integer rounds to itself. -/
theorem roundHalfEven_intCast (k : ℤ) : roundHalfEven (k : ℚ) = k := by
  simp [roundHalfEven]

/-- Rounding never goes below the floor. -/
theorem floor_le_roundHalfEven (y : ℚ) : ⌊y⌋ ≤ roundHalfEven y := by
  unfold roundHalfEven
  split_ifs <;> omega

/-- Rounding does not go below an integer that is not above the argument. -/
theorem le_roundHalfEven (y : ℚ) (m : ℤ) (h : (m : ℚ) ≤ y) : m ≤ roundHalfEven y :=
  le_trans (Int.le_floor.mpr h) (floor_le_roundHalfEven y)

/-- Rounding stays below an integer that is more than one half above the argument. -/
theorem roundHalfEven_lt (y : ℚ) (m : ℤ) (h : y < (m : ℚ) - 1 / 2) : roundHalfEven y < m := by
  have hfl : ⌊y⌋ < m := by
    rw [Int.floor_lt]
    linarith
  unfold roundHalfEven
  by_cases hc : y - ⌊y⌋ < 1 / 2
  · rw [if_pos hc]
    exact hfl
  · rw [if_neg hc]
    have hne : ⌊y⌋ ≠ m - 1 := by
      intro heq
      apply hc
      rw [heq]
      push_cast
      linarith
    split_ifs <;> omega

/-- The spacing around a positive number whose binary exponent is `e`, in the normal range. -/
theorem spacing_eq (x : ℚ) (e : ℤ) (hx : 0 < x) (hlo : (2 : ℚ) ^ e ≤ x) (hhi : x < (2 : ℚ) ^ (e + 1))
    (he : -1022 ≤ e) : spacing x = (2 : ℚ) ^ (e - 52) := by
  have hlog : Int.log 2 |x| = e := by
    rw [abs_of_pos hx]
    apply le_antisymm
    · have := (Int.lt_zpow_iff_log_lt (b := 2) (by norm_num) hx (x := e + 1)).mp (by exact_mod_cast hhi)
      omega
    · exact (Int.zpow_le_iff_le_log (b := 2) (by norm_num) hx).mp (by exact_mod_cast hlo)
  unfold spacing
  rw [hlog, max_eq_left he]

/-- The double nearest to a positive number, from its binary exponent and its rounded
significand. -/
theorem ofRat_eq (x : ℚ) (e k : ℤ) (hx : 0 < x) (hlo : (2 : ℚ) ^ e ≤ x)
    (hhi : x < (2 : ℚ) ^ (e + 1)) (he : -1022 ≤ e)
    (hk : roundHalfEven (x / (2 : ℚ) ^ (e - 52)) = k)
    (hfin : |(k : ℚ) * (2 : ℚ) ^ (e - 52)| < (2 : ℚ) ^ (1024 : ℕ)) :
    JsNum.ofRat x = .finite (k * (2 : ℚ) ^ (e - 52)) := by
  unfold JsNum.ofRat
  rw [if_neg hx.ne', spacing_eq x e hx hlo hhi he, hk, if_neg (not_le.mpr hfin)]

/-- A whole number below `2 ^ 53` is a double. -/
theorem ofRat_natCast (n : ℕ) (h : n < 2 ^ 53) : JsNum.ofRat (n : ℚ) = .finite n := by
  by_cases h0 : n = 0
  · simp [h0, JsNum.ofRat]
  have hpos : (0 : ℚ) < n := by exact_mod_cast Nat.pos_of_ne_zero h0
  have hlt : Nat.log 2 n < 53 := Nat.log_lt_of_lt_pow h0 h
  have hlo : (2 : ℚ) ^ ((Nat.log 2 n : ℕ) : ℤ) ≤ n := by
    rw [zpow_natCast]
    exact_mod_cast Nat.pow_log_le_self 2 h0
  have hhi : (n : ℚ) < (2 : ℚ) ^ (((Nat.log 2 n : ℕ) : ℤ) + 1) := by
    have : n < 2 ^ (Nat.log 2 n + 1) := Nat.lt_pow_succ_log_self (by norm_num) n
    have h2 : (n : ℚ) < (2 : ℚ) ^ (Nat.log 2 n + 1) := by exact_mod_cast this
    rw [show ((Nat.log 2 n : ℕ) : ℤ) + 1 = ((Nat.log 2 n + 1 : ℕ) : ℤ) by push_cast; ring, zpow_natCast]
    exact h2
  obtain ⟨j, hj⟩ : ∃ j : ℕ, ((Nat.log 2 n : ℕ) : ℤ) - 52 = -(j : ℤ) := ⟨52 - Nat.log 2 n, by omega⟩
  have hdiv : (n : ℚ) / (2 : ℚ) ^ (((Nat.log 2 n : ℕ) : ℤ) - 52) = ((n * 2 ^ j : ℕ) : ℤ) := by
    rw [hj, zpow_neg, zpow_natCast]
    push_cast
    field_simp
  have hval : (((n * 2 ^ j : ℕ) : ℤ) : ℚ) * (2 : ℚ) ^ (((Nat.log 2 n : ℕ) : ℤ) - 52) = n := by
    rw [hj, zpow_neg, zpow_natCast]
    push_cast
    field_simp
  have := ofRat_eq n (Nat.log 2 n) ((n * 2 ^ j : ℕ) : ℤ) hpos hlo hhi (by omega)
    (by rw [hdiv, roundHalfEven_intCast])
    (by
      rw [hval, abs_of_pos hpos]
      have : (n : ℚ) < (2 : ℚ) ^ (53 : ℕ) := by exact_mod_cast h
      exact this.trans (by norm_num))
  rw [this, hval]

/-- Rounding goes above an integer that is more than one half below the argument. -/
theorem lt_roundHalfEven (y : ℚ) (m : ℤ) (h : (m : ℚ) + 1 / 2 < y) : m < roundHalfEven y := by
  have hfl : m ≤ ⌊y⌋ := by
    rw [Int.le_floor]
    linarith
  have hge := floor_le_roundHalfEven y
  by_cases hc : y - ⌊y⌋ ≤ 1 / 2
  · have hne : ⌊y⌋ ≠ m := by
      intro heq
      rw [heq] at hc
      linarith
    omega
  · have h1 : ¬ y - ⌊y⌋ < 1 / 2 := fun h2 => hc h2.le
    have h2 : roundHalfEven y = ⌊y⌋ + 1 := by
      unfold roundHalfEven
      rw [if_neg h1, if_pos (not_le.mp hc)]
    omega

/-- Rounding gives the integer that is less than one half away. -/
theorem roundHalfEven_eq (y : ℚ) (k : ℤ) (h1 : (k : ℚ) - 1 / 2 < y) (h2 : y < (k : ℚ) + 1 / 2) :
    roundHalfEven y = k := by
  have a := lt_roundHalfEven y (k - 1) (by push_cast; linarith)
  have b := roundHalfEven_lt y (k + 1) (by push_cast; linarith)
  omega

/-- Rounding a tie gives the even neighbour. -/
theorem roundHalfEven_tie (f : ℤ) :
    roundHalfEven ((f : ℚ) + 1 / 2) = if f % 2 = 0 then f else f + 1 := by
  have hfl : ⌊(f : ℚ) + 1 / 2⌋ = f := by
    rw [Int.floor_eq_iff]
    constructor <;> norm_num
  unfold roundHalfEven
  rw [hfl]
  norm_num

/-- The rounded quotient of a whole number below `2 ^ 52` by a count, computed on doubles, is the
exact rounded quotient. -/
theorem round_divCount (S n : ℕ) (hS : S < 2 ^ 52) (hn : 0 < n) (hn' : n < 2 ^ 32) :
    (orZero (some (JsNum.divCount (.finite S) n))).round =
      .finite (roundedAverage S n) := by
  have hnq : (0 : ℚ) < n := by exact_mod_cast hn
  have hK0 := roundedAverage_eq_floor S n hn
  unfold JsNum.divCount
  simp only [if_neg hn.ne']
  by_cases hS0 : S = 0
  · subst hS0
    have h0 : roundedAverage 0 n = 0 := by
      unfold roundedAverage
      rw [if_neg hn.ne']
      exact Nat.div_eq_of_lt (by omega)
    have hz : (0 : JsNum) = .finite 0 := by
      show JsNum.finite ((0 : ℕ) : ℚ) = _
      norm_num
    have hfl : ⌊(0 : ℚ) + 1 / 2⌋ = 0 := by
      rw [Int.floor_eq_iff]
      constructor <;> norm_num
    simp only [Nat.cast_zero, zero_div, JsNum.ofRat, if_true, orZero, hz, JsNum.round, h0,
      hfl, Int.cast_zero]
  have hSq : (1 : ℚ) ≤ S := by exact_mod_cast Nat.one_le_iff_ne_zero.mpr hS0
  set x : ℚ := (S : ℚ) / n with hx
  have hxpos : 0 < x := div_pos (by linarith) hnq
  have hxn : x * n = S := by rw [hx]; field_simp
  have hSlt : (S : ℚ) < 2 ^ 52 := by exact_mod_cast hS
  -- the rounded average
  obtain ⟨K, hKfl⟩ : ∃ K : ℕ, ⌊x + 1 / 2⌋ = (K : ℤ) ∧ roundedAverage S n = K := by
    refine ⟨roundedAverage S n, ?_, rfl⟩
    rw [hK0, Int.natCast_floor_eq_floor]
    positivity
  obtain ⟨hKfl, hKr⟩ := hKfl
  have hK1 : (K : ℚ) ≤ x + 1 / 2 := by
    have := Int.floor_le (x + 1 / 2)
    rw [hKfl] at this
    exact_mod_cast this
  have hK2 : x + 1 / 2 < (K : ℚ) + 1 := by
    have := Int.lt_floor_add_one (x + 1 / 2)
    rw [hKfl] at this
    exact_mod_cast this
  -- the quotient stays away from the next half by 1 / (2 n)
  have hK3 : x + 1 / (2 * n) ≤ (K : ℚ) + 1 / 2 := by
    have h1 : (2 * S : ℚ) < n * (2 * K + 1) := by
      have : x * n < (K + 1 / 2) * n := by
        apply mul_lt_mul_of_pos_right _ hnq
        linarith
      rw [hxn] at this
      linarith
    have h2 : 2 * S < n * (2 * K + 1) := by exact_mod_cast h1
    have h3 : 2 * S + 1 ≤ n * (2 * K + 1) := h2
    have h4 : (2 * S + 1 : ℚ) ≤ n * (2 * K + 1) := by exact_mod_cast h3
    rw [← hxn] at h4
    have h5 : x + 1 / (2 * n) = (2 * (x * n) + 1) / (2 * n) := by
      field_simp
      ring
    rw [h5, div_le_iff₀ (by positivity)]
    linarith
  -- exponent
  have hlo : (2 : ℚ) ^ (Int.log 2 x) ≤ x := by
    exact_mod_cast Int.zpow_log_le_self (b := 2) (by norm_num) hxpos
  have hhi : x < (2 : ℚ) ^ (Int.log 2 x + 1) := by
    exact_mod_cast Int.lt_zpow_succ_log_self (b := 2) (by norm_num) x
  set e : ℤ := Int.log 2 x with he
  have hxlt : x < (2 : ℚ) ^ (52 : ℤ) := by
    have h1 : x ≤ S := div_le_self (by linarith) (by exact_mod_cast hn)
    have h2 : (2 : ℚ) ^ (52 : ℤ) = 2 ^ 52 := by norm_num
    rw [h2]
    exact lt_of_le_of_lt h1 hSlt
  have hxge : (2 : ℚ) ^ (-32 : ℤ) ≤ x := by
    have : (n : ℚ) < 2 ^ 32 := by exact_mod_cast hn'
    rw [hx, le_div_iff₀ hnq]
    have h2 : (2 : ℚ) ^ (-32 : ℤ) * n ≤ 2 ^ (-32 : ℤ) * 2 ^ 32 := by
      apply mul_le_mul_of_nonneg_left this.le
      positivity
    have h3 : (2 : ℚ) ^ (-32 : ℤ) * 2 ^ 32 = 1 := by norm_num
    linarith
  have he_hi : e < 52 := by
    rw [he, ← Int.lt_zpow_iff_log_lt (by norm_num) hxpos]
    exact_mod_cast hxlt
  have he_lo : -32 ≤ e := by
    rw [he, ← Int.zpow_le_iff_le_log (by norm_num) hxpos]
    exact_mod_cast hxge
  obtain ⟨j, hj⟩ : ∃ j : ℕ, e - 52 = -((j : ℤ) + 1) := ⟨(51 - e).toNat, by omega⟩
  have hpj : (0 : ℚ) < 2 ^ j := by positivity
  have hu : (2 : ℚ) ^ (e - 52) = 1 / (2 ^ j * 2) := by
    rw [hj, zpow_neg, zpow_add_one₀ (by norm_num), zpow_natCast]
    field_simp
  -- the spacing is below 1 / n
  have hun : (n : ℚ) < 2 ^ j * 2 := by
    have h1 : (2 : ℚ) ^ (e - 52) = 2 ^ e / 2 ^ (52 : ℤ) := by
      rw [zpow_sub₀ (by norm_num)]
    have h3 : (2 : ℚ) ^ (52 : ℤ) = 2 ^ 52 := by norm_num
    rw [h3, hu] at h1
    have h4 : (2 : ℚ) ^ e * n < 2 ^ 52 :=
      calc (2 : ℚ) ^ e * n ≤ x * n := mul_le_mul_of_nonneg_right hlo hnq.le
        _ = S := hxn
        _ < 2 ^ 52 := hSlt
    have h5 : (2 : ℚ) ^ e = 2 ^ 52 / (2 ^ j * 2) := by
      field_simp at h1 ⊢
      linarith
    rw [h5] at h4
    have h6 : (2 : ℚ) ^ 52 / (2 ^ j * 2) * n = 2 ^ 52 * (n / (2 ^ j * 2)) := by ring
    rw [h6] at h4
    have h7 : (n : ℚ) / (2 ^ j * 2) < 1 := by
      by_contra hcon
      push_neg at hcon
      have : (2 : ℚ) ^ 52 * 1 ≤ 2 ^ 52 * (n / (2 ^ j * 2)) :=
        mul_le_mul_of_nonneg_left hcon (by positivity)
      linarith
    rwa [div_lt_one (by positivity)] at h7
  -- the rounded significand
  have hy : x / (2 : ℚ) ^ (e - 52) = x * (2 ^ j * 2) := by
    rw [hu]
    field_simp
  set k : ℤ := roundHalfEven (x / (2 : ℚ) ^ (e - 52)) with hk
  have hk_lo : (2 * (K : ℤ) - 1) * 2 ^ j ≤ k := by
    apply le_roundHalfEven
    rw [hy]
    push_cast
    have : (2 * (K : ℚ) - 1) * 2 ^ j = (K - 1 / 2) * (2 ^ j * 2) := by ring
    rw [this]
    apply mul_le_mul_of_nonneg_right _ (by positivity)
    linarith
  have hk_hi : k < (2 * (K : ℤ) + 1) * 2 ^ j := by
    apply roundHalfEven_lt
    rw [hy]
    push_cast
    have h1 : 1 / (2 ^ j * 2 : ℚ) < 1 / n := by
      apply one_div_lt_one_div_of_lt hnq hun
    have h2 : x < K + 1 / 2 - 1 / (2 ^ j * 2) / 2 := by
      have : 1 / (2 * (n : ℚ)) = 1 / n / 2 := by
        field_simp
        ring
      rw [this] at hK3
      linarith
    have h3 : (2 * (K : ℚ) + 1) * 2 ^ j - 1 / 2 = (K + 1 / 2 - 1 / (2 ^ j * 2) / 2) * (2 ^ j * 2) := by
      field_simp
      ring
    rw [h3]
    exact mul_lt_mul_of_pos_right h2 (by positivity)
  have hk_pos : 0 < k := by
    have : (1 : ℤ) ≤ k := by
      apply le_roundHalfEven
      rw [hy]
      push_cast
      have h1 : (2 : ℚ) ^ e * (2 ^ j * 2) ≤ x * (2 ^ j * 2) :=
        mul_le_mul_of_nonneg_right hlo (by positivity)
      have h2 : (2 : ℚ) ^ e * (2 ^ j * 2) = 2 ^ (52 : ℤ) := by
        have : (2 : ℚ) ^ e = 2 ^ (52 : ℤ) * 2 ^ (e - 52) := by
          rw [← zpow_add₀ (by norm_num)]
          congr 1
          ring
        rw [this, hu]
        field_simp
      rw [h2] at h1
      have h3 : (1 : ℚ) ≤ 2 ^ (52 : ℤ) := by norm_num
      linarith
    omega
  -- the value
  have hval_lo : (K : ℚ) - 1 / 2 ≤ (k : ℚ) * (1 / (2 ^ j * 2)) := by
    have h1 : ((2 * (K : ℤ) - 1) * 2 ^ j : ℤ) ≤ k := hk_lo
    have h2 : (((2 * (K : ℤ) - 1) * 2 ^ j : ℤ) : ℚ) ≤ k := by exact_mod_cast h1
    push_cast at h2
    have h3 : (K : ℚ) - 1 / 2 = (2 * K - 1) * 2 ^ j * (1 / (2 ^ j * 2)) := by
      field_simp
      ring
    rw [h3]
    exact mul_le_mul_of_nonneg_right h2 (by positivity)
  have hval_hi : (k : ℚ) * (1 / (2 ^ j * 2)) < K + 1 / 2 := by
    have h2 : (k : ℚ) < (((2 * (K : ℤ) + 1) * 2 ^ j : ℤ) : ℚ) := by exact_mod_cast hk_hi
    push_cast at h2
    have h3 : (K : ℚ) + 1 / 2 = (2 * K + 1) * 2 ^ j * (1 / (2 ^ j * 2)) := by
      field_simp
      ring
    rw [h3]
    exact mul_lt_mul_of_pos_right h2 (by positivity)
  have hval_pos : (0 : ℚ) < (k : ℚ) * (1 / (2 ^ j * 2)) := by
    apply mul_pos
    · exact_mod_cast hk_pos
    · positivity
  have hof := ofRat_eq x e k hxpos hlo hhi (by omega) hk.symm (by
    rw [hu, abs_of_pos hval_pos]
    have h1 : (K : ℚ) + 1 / 2 < 2 ^ (1024 : ℕ) := by
      have h2 : (K : ℚ) ≤ 2 ^ 52 + 1 / 2 := by
        have h3 : (2 : ℚ) ^ (52 : ℤ) = 2 ^ 52 := by norm_num
        rw [h3] at hxlt
        linarith
      have h4 : (2 : ℚ) ^ 52 + 1 < 2 ^ (1024 : ℕ) := by norm_num
      linarith
    linarith)
  rw [hof, hu]
  have hfl : ⌊(k : ℚ) * (1 / (2 ^ j * 2)) + 1 / 2⌋ = (K : ℤ) := by
    rw [Int.floor_eq_iff]
    constructor
    · push_cast
      linarith
    · push_cast
      linarith
  simp only [orZero, if_neg hval_pos.ne', JsNum.round, hfl, hKr]
  simp

/-- The double nearest to a positive number, with the value written out. -/
theorem ofRat_of_bounds (x v : ℚ) (e k : ℤ) (hx : 0 < x) (hlo : (2 : ℚ) ^ e ≤ x)
    (hhi : x < (2 : ℚ) ^ (e + 1)) (he : -1022 ≤ e)
    (hk : roundHalfEven (x / (2 : ℚ) ^ (e - 52)) = k)
    (hv : (k : ℚ) * (2 : ℚ) ^ (e - 52) = v) (hfin : |v| < (2 : ℚ) ^ (1024 : ℕ)) :
    JsNum.ofRat x = .finite v := by
  rw [ofRat_eq x e k hx hlo hhi he hk (by rw [hv]; exact hfin), hv]

/-- The literal `0`. -/
theorem zero_eq_finite : (0 : JsNum) = .finite 0 := by
  show JsNum.finite ((0 : ℕ) : ℚ) = _
  norm_num

/-- The sum of two whole numbers is exact when it is below `2 ^ 53`. -/
theorem add_natCast (a b : ℕ) (h : a + b < 2 ^ 53) :
    JsNum.add (.finite a) (.finite b) = .finite ((a + b : ℕ) : ℚ) := by
  have := ofRat_natCast (a + b) h
  simp only [JsNum.add]
  push_cast at this ⊢
  exact this

/-- A finite number is kept by `x || 0` (a zero is replaced by zero). -/
theorem orZero_finite (q : ℚ) : orZero (some (.finite q)) = .finite q := by
  simp only [orZero]
  split_ifs with h
  · rw [h, zero_eq_finite]
  · rfl

/-- The double `19.99`. -/
theorem ofRat_1999_100 :
    JsNum.ofRat (1999 / 100) = .finite (5626684784446013 / 281474976710656) :=
  ofRat_of_bounds _ _ 4 5626684784446013 (by norm_num) (by norm_num) (by norm_num) (by norm_num)
    (roundHalfEven_eq _ _ (by norm_num) (by norm_num)) (by norm_num)
    (by rw [abs_lt]; constructor <;> norm_num)

/-- The double `19.99 * 100`, which is `1998.9999999999998`. -/
theorem ofRat_1999_100_times :
    JsNum.ofRat (5626684784446013 / 281474976710656 * 100) =
      .finite (8791694975696895 / 4398046511104) :=
  ofRat_of_bounds _ _ 10 8791694975696895 (by norm_num) (by norm_num) (by norm_num) (by norm_num)
    (roundHalfEven_eq _ _ (by norm_num) (by norm_num)) (by norm_num)
    (by rw [abs_lt]; constructor <;> norm_num)

/-- The double `360287970189641 * 100`: a tie between `36028797018964096` and
`36028797018964104`, rounded to the even significand. -/
theorem ofRat_big_times :
    JsNum.ofRat (360287970189641 * 100) = .finite 36028797018964096 :=
  ofRat_of_bounds _ _ 55 4503599627370512 (by norm_num) (by norm_num) (by norm_num) (by norm_num)
    (by
      have h : (360287970189641 * 100 : ℚ) / 2 ^ (55 - 52 : ℤ) =
          ((4503599627370512 : ℤ) : ℚ) + 1 / 2 := by norm_num
      rw [h, roundHalfEven_tie]
      norm_num) (by norm_num)
    (by rw [abs_lt]; constructor <;> norm_num)

/-- The double `6755399441055745 / 3`, which is `2251799813685248.5`. -/
theorem ofRat_third :
    JsNum.ofRat (6755399441055745 / 3) = .finite (4503599627370497 / 2) :=
  ofRat_of_bounds _ _ 51 4503599627370497 (by norm_num) (by norm_num) (by norm_num) (by norm_num)
    (roundHalfEven_eq _ _ (by norm_num) (by norm_num)) (by norm_num)
    (by rw [abs_lt]; constructor <;> norm_num)

/-- The double `0.1`. -/
theorem ofRat_tenth :
    JsNum.ofRat (1 / 10) = .finite (3602879701896397 / 36028797018963968) :=
  ofRat_of_bounds _ _ (-4) 7205759403792794 (by norm_num) (by norm_num) (by norm_num)
    (by norm_num) (roundHalfEven_eq _ _ (by norm_num) (by norm_num)) (by norm_num)
    (by rw [abs_lt]; constructor <;> norm_num)

/-- The double `0 + 0.1`. -/
theorem ofRat_tenth_again :
    JsNum.ofRat (0 + 3602879701896397 / 36028797018963968) =
      .finite (3602879701896397 / 36028797018963968) :=
  ofRat_of_bounds _ _ (-4) 7205759403792794 (by norm_num) (by norm_num) (by norm_num)
    (by norm_num) (roundHalfEven_eq _ _ (by norm_num) (by norm_num)) (by norm_num)
    (by rw [abs_lt]; constructor <;> norm_num)

/-- The double `0.2`. -/
theorem ofRat_fifth :
    JsNum.ofRat (1 / 5) = .finite (3602879701896397 / 18014398509481984) :=
  ofRat_of_bounds _ _ (-3) 7205759403792794 (by norm_num) (by norm_num) (by norm_num)
    (by norm_num) (roundHalfEven_eq _ _ (by norm_num) (by norm_num)) (by norm_num)
    (by rw [abs_lt]; constructor <;> norm_num)

/-- The double `0.1 + 0.2`, which is `0.30000000000000004`: a tie, rounded to the even
significand. -/
theorem ofRat_tenth_plus_fifth :
    JsNum.ofRat (3602879701896397 / 36028797018963968 + 3602879701896397 / 18014398509481984) =
      .finite (1351079888211149 / 4503599627370496) :=
  ofRat_of_bounds _ _ (-2) 5404319552844596 (by norm_num) (by norm_num) (by norm_num)
    (by norm_num)
    (by
      have h : (3602879701896397 / 36028797018963968 + 3602879701896397 / 18014398509481984 : ℚ)
          / 2 ^ (-2 - 52 : ℤ) = ((5404319552844595 : ℤ) : ℚ) + 1 / 2 := by norm_num
      rw [h, roundHalfEven_tie]
      norm_num) (by norm_num)
    (by rw [abs_lt]; constructor <;> norm_num)

/-- The double `0.3`. -/
theorem ofRat_three_tenths :
    JsNum.ofRat (3 / 10) = .finite (5404319552844595 / 18014398509481984) :=
  ofRat_of_bounds _ _ (-2) 5404319552844595 (by norm_num) (by norm_num) (by norm_num)
    (by norm_num) (roundHalfEven_eq _ _ (by norm_num) (by norm_num)) (by norm_num)
    (by rw [abs_lt]; constructor <;> norm_num)

/-- The sum of two finite numbers is the double nearest to the exact sum. -/
theorem add_finite (a b : ℚ) : JsNum.add (.finite a) (.finite b) = JsNum.ofRat (a + b) :=
  rfl

/-- The quotient of a finite number by a count that is not 0 is the double nearest to the
exact quotient. -/
theorem divCount_finite (q : ℚ) (count : ℕ) (h : count ≠ 0) :
    (JsNum.finite q).divCount count = JsNum.ofRat (q / count) := by
  simp only [JsNum.divCount, if_neg h]

/-- The function `Math.round` on a finite number. -/
theorem round_finite (q : ℚ) : (JsNum.finite q).round = .finite ((⌊q + 1 / 2⌋ : ℤ) : ℚ) :=
  rfl

/-- The total of a sample order row. -/
theorem orderOf_total (total : Option JsNum) : (orderOf total).total = total :=
  rfl

/-- The average of no numbers: `Math.round(NaN || 0)` is 0. -/
theorem round_orZero_nan : (orZero (some .nan)).round = 0 := by
  have hfl : ⌊((0 : ℕ) : ℚ) + 1 / 2⌋ = 0 := by
    rw [Int.floor_eq_iff]
    constructor <;> norm_num
  show JsNum.finite ((⌊((0 : ℕ) : ℚ) + 1 / 2⌋ : ℤ) : ℚ) = JsNum.finite ((0 : ℕ) : ℚ)
  rw [hfl]
  norm_num

/-- Adding whole-number totals is exact while the sum stays below `2 ^ 53`. -/
theorem foldl_totals (orders : List OrderRecord) (totals : List (Option ℕ)) (a : ℕ)
    (h : orders.map (fun o => o.total) = totals.map (Option.map fun n : ℕ => JsNum.finite n))
    (hsum : a + (totals.map fun t => t.getD 0).sum < 2 ^ 53) :
    orders.foldl (fun (sum : JsNum) (order : OrderRecord) => sum.add (orZero order.total))
        (.finite a) =
      .finite ((a + (totals.map fun t => t.getD 0).sum : ℕ) : ℚ) := by
  induction orders generalizing totals a with
  | nil =>
    cases totals with
    | nil => simp
    | cons t ts => simp at h
  | cons o os ih =>
    cases totals with
    | nil => simp at h
    | cons t ts =>
      simp only [List.map_cons, List.cons.injEq] at h
      obtain ⟨ho, hos⟩ := h
      simp only [List.map_cons, List.sum_cons] at hsum
      have hstep : JsNum.add (.finite a) (orZero o.total) = .finite ((a + t.getD 0 : ℕ) : ℚ) := by
        rw [ho]
        cases t with
        | none =>
          show JsNum.add (.finite a) (.finite ((0 : ℕ) : ℚ)) = _
          exact add_natCast a 0 (by simp only [Option.getD_none] at hsum; omega)
        | some n =>
          show JsNum.add (.finite a) (orZero (some (.finite n))) = _
          rw [orZero_finite]
          exact add_natCast a n (by simp only [Option.getD_some] at hsum; omega)
      simp only [List.foldl_cons, hstep, List.map_cons, List.sum_cons]
      rw [ih ts (a + t.getD 0) hos (by omega)]
      congr 2
      omega

/-- Adding whole durations is exact while the sum stays below `2 ^ 53`. -/
theorem foldl_durations (calls : List CallRecord) (a : ℕ)
    (hsum : a + (calls.map fun c => c.duration.getD 0).sum < 2 ^ 53) :
    calls.foldl (fun (sum : JsNum) (call : CallRecord) =>
        sum.add (orZero (call.duration.map fun d => JsNum.ofRat d))) (.finite a) =
      .finite ((a + (calls.map fun c => c.duration.getD 0).sum : ℕ) : ℚ) := by
  induction calls generalizing a with
  | nil => simp
  | cons c cs ih =>
    simp only [List.map_cons, List.sum_cons] at hsum
    have hstep : JsNum.add (.finite a) (orZero (c.duration.map fun d => JsNum.ofRat d)) =
        .finite ((a + c.duration.getD 0 : ℕ) : ℚ) := by
      cases hd : c.duration with
      | none =>
        show JsNum.add (.finite a) (.finite ((0 : ℕ) : ℚ)) = _
        exact add_natCast a 0 (by omega)
      | some n =>
        rw [hd] at hsum
        simp only [Option.getD_some] at hsum
        show JsNum.add (.finite a) (orZero (some (JsNum.ofRat n))) = _
        rw [ofRat_natCast n (by omega), orZero_finite]
        exact add_natCast a n (by omega)
    simp only [List.foldl_cons, hstep, List.map_cons, List.sum_cons]
    rw [ih (a + c.duration.getD 0) (by omega)]
    congr 2
    omega

/-- The revenue of whole-number totals whose sum is below `2 ^ 53` is their sum. -/
theorem revenue_whole (orders : List OrderRecord) (totals : List (Option ℕ))
    (h : orders.map (fun o => o.total) = totals.map (Option.map fun n : ℕ => JsNum.finite n))
    (hsum : (totals.map fun t => t.getD 0).sum < 2 ^ 53) :
    orZero (some (sumOfTotals orders)) =
      .finite (((totals.map fun t => t.getD 0).sum : ℕ) : ℚ) := by
  have := foldl_totals orders totals 0 h (by omega)
  rw [Nat.zero_add] at this
  unfold sumOfTotals
  rw [show (0 : JsNum) = .finite ((0 : ℕ) : ℚ) from rfl, this, orZero_finite]

/-- The average of whole durations whose sum is below `2 ^ 52` is the exact rounded average. -/
theorem average_whole (calls : List CallRecord)
    (hsum : (calls.map fun c => c.duration.getD 0).sum < 2 ^ 52)
    (hcount : calls.length < 2 ^ 32) :
    (orZero (some ((sumOfDurations calls).divCount calls.length))).round =
      .finite ((roundedAverage (calls.map fun c => c.duration.getD 0).sum calls.length : ℕ) : ℚ) := by
  have := foldl_durations calls 0 (by omega)
  rw [Nat.zero_add] at this
  unfold sumOfDurations
  rw [show (0 : JsNum) = .finite ((0 : ℕ) : ℚ) from rfl, this]
  by_cases hlen : calls.length = 0
  · have hnil : calls = [] := List.length_eq_zero.mp hlen
    subst hnil
    exact round_orZero_nan
  · exact round_divCount _ _ hsum (Nat.pos_of_ne_zero hlen) hcount

/-! ## The claims -/

/-- C1: both webhook handlers, for every request body, every outcome of the store call and
every outcome of the text-generation call, answer with a document that has a spoken element
with non-empty text; when the store call throws inside the handler the document is the
handler's literal apology line. -/
theorem C1_webhooks_always_speak (openai : ChatRequest → ServiceOutcome)
    (insert update : StoreOutcome) (now : Nat) (body : WebhookBody) (calls : List CallRecord) :
    (∃ t ∈ spokenTexts (voiceWebhook insert now body calls).2.document, t ≠ "") ∧
    (∃ t ∈ spokenTexts (processSpeechWebhook openai update body calls).2.document, t ≠ "") ∧
    (∀ e, spokenTexts (voiceWebhook (.thrown e) now body calls).2.document = [voiceApology]) ∧
    (∀ e, spokenTexts (processSpeechWebhook openai (.thrown e) body calls).2.document
      = [speechApology]) := by
  obtain ⟨r, hr⟩ := getAIResponse_returns openai body.SpeechResult ""
  refine ⟨?_, ?_, ?_, ?_⟩
  · rw [voiceWebhook_eq]
    cases insert
    · exact ⟨greetingText, by simp [voiceDocument, spokenTexts, aliceSay], by decide⟩
    · exact ⟨greetingText, by simp [voiceDocument, spokenTexts, aliceSay], by decide⟩
    · exact ⟨voiceApology, by simp [spokenTexts, plainSay], by decide⟩
  · rw [processSpeechWebhook_eq openai update body calls r hr]
    cases update
    · refine ⟨closingText, ?_, by decide⟩
      cases r <;> simp [speechDocument, spokenTexts, aliceSay, plainSay]
    · refine ⟨closingText, ?_, by decide⟩
      cases r <;> simp [speechDocument, spokenTexts, aliceSay, plainSay]
    · exact ⟨speechApology, by simp [spokenTexts, plainSay], by decide⟩
  · intro e
    rw [voiceWebhook_eq]
    rfl
  · intro e
    rw [processSpeechWebhook_eq openai (.thrown e) body calls r hr]
    rfl

/-- C2 (counterexample): when the insert resolves with an error the greeting is spoken although
the table holds no record of the call, and when the insert throws no record is created. -/
theorem C2_greeting_without_record :
    greetingText ∈
        spokenTexts (voiceWebhook (.reportedError "permission denied") 0 sampleStart []).2.document ∧
      (voiceWebhook (.reportedError "permission denied") 0 sampleStart []).1 = [] ∧
      (voiceWebhook (.thrown "fetch failed") 0 sampleStart []).1 = [] := by
  decide

/-- C2 (amended): for every start of a call whose insert succeeds, the table afterwards is the
table before followed by one record with caller number `From`, call id `CallSid`, status
`answered`, duration 0 and no transcript or AI response, and the greeting is spoken; the insert
comes first, so when it throws the table is unchanged and no greeting is spoken. -/
theorem C2_record_created_before_greeting (now : Nat) (body : WebhookBody)
    (calls : List CallRecord) :
    (voiceWebhook .ok now body calls).1 = calls ++ [newCallRecord body now] ∧
    (newCallRecord body now).caller_number = body.From ∧
    (newCallRecord body now).call_sid = body.CallSid ∧
    (newCallRecord body now).status = "answered" ∧
    (newCallRecord body now).duration = some 0 ∧
    (newCallRecord body now).transcript = none ∧
    (newCallRecord body now).ai_response = none ∧
    greetingText ∈ spokenTexts (voiceWebhook .ok now body calls).2.document ∧
    (∀ e, (voiceWebhook (.thrown e) now body calls).1 = calls ∧
      greetingText ∉ spokenTexts (voiceWebhook (.thrown e) now body calls).2.document) := by
  refine ⟨rfl, rfl, rfl, rfl, rfl, rfl, rfl, ?_, ?_⟩
  · rw [voiceWebhook_eq]
    simp [voiceDocument, spokenTexts, aliceSay]
  · intro e
    rw [voiceWebhook_eq]
    refine ⟨rfl, ?_⟩
    simp only [spokenTexts, plainSay]
    decide

/-- C3 (counterexample): a record of the call exists and the reply generator returns a reply,
but the store update throws: the only spoken element is the handler's apology, not the reply,
no capture directive follows, and the record has no transcript. -/
theorem C3_update_throws_no_reply :
    getAIResponse sampleService sampleTurn.SpeechResult "" = .ok (.str "We\x27re open 9 to 5.") ∧
      (processSpeechWebhook sampleService (.thrown "fetch failed") sampleTurn
        [sampleRecord]).2.document = [.say (plainSay speechApology)] ∧
      (processSpeechWebhook sampleService (.thrown "fetch failed") sampleTurn
        [sampleRecord]).1 = [sampleRecord] ∧
      sampleRecord.transcript = none :=
  ⟨rfl, rfl, rfl, rfl⟩

/-- C3 (amended): for every speech turn with utterance `u` and call id `c` for which a record
exists, if the reply generator returns `r` and the store update does not throw, the first
element of the document speaks exactly `r` and the second is a speech-capture directive; if
the update succeeds, a record with call id `c` exists afterwards and every record with call
id `c` has transcript `u` and AI response `r`. -/
theorem C3_reply_spoken_and_attached (openai : ChatRequest → ServiceOutcome)
    (update : StoreOutcome) (body : WebhookBody) (calls : List CallRecord) (u c r : String)
    (hu : body.SpeechResult = some u) (hc : body.CallSid = some c)
    (hex : ∃ rec ∈ calls, rec.call_sid = some c)
    (hr : getAIResponse openai body.SpeechResult "" = .ok (.str r))
    (hnt : ∀ e, update ≠ .thrown e) :
    (processSpeechWebhook openai update body calls).2.document.head?
        = some (.say { voice := some "alice", language := some "en-US", text := some r }) ∧
    (processSpeechWebhook openai update body calls).2.document.get? 1
        = some (.gather "speech" 5 "/webhook/process-speech" [plainSay secondPromptText]) ∧
    (∃ rec ∈ (processSpeechWebhook openai .ok body calls).1, rec.call_sid = some c) ∧
    (∀ rec ∈ (processSpeechWebhook openai .ok body calls).1, rec.call_sid = some c →
      rec.transcript = some u ∧ rec.ai_response = some r) := by
  rw [processSpeechWebhook_eq openai update body calls _ hr,
    processSpeechWebhook_eq openai .ok body calls _ hr]
  refine ⟨?_, ?_, ?_, ?_⟩
  · cases update with
    | ok => rfl
    | reportedError m => rfl
    | thrown e => exact absurd rfl (hnt e)
  · cases update with
    | ok => rfl
    | reportedError m => rfl
    | thrown e => exact absurd rfl (hnt e)
  · exact updateRows_keeps_call_sid _ _ calls (some c) hex
  · intro rec hrec hsid
    simp only [hu, hc] at hrec
    exact updateRows_matching u r c calls rec hrec hsid

/-- C3 (witness): the scenario of the specification. -/
theorem C3_reply_spoken_and_attached_witness :
    (processSpeechWebhook sampleService .ok sampleTurn [sampleRecord]).2.document.head?
        = some (.say
          { voice := some "alice", language := some "en-US", text := some "We\x27re open 9 to 5." }) ∧
    (processSpeechWebhook sampleService .ok sampleTurn [sampleRecord]).2.document.get? 1
        = some (.gather "speech" 5 "/webhook/process-speech" [plainSay secondPromptText]) ∧
    (∃ rec ∈ (processSpeechWebhook sampleService .ok sampleTurn [sampleRecord]).1,
      rec.call_sid = some "CA123") ∧
    (∀ rec ∈ (processSpeechWebhook sampleService .ok sampleTurn [sampleRecord]).1,
      rec.call_sid = some "CA123" →
      rec.transcript = some "what are your hours" ∧
        rec.ai_response = some "We\x27re open 9 to 5.") :=
  C3_reply_spoken_and_attached sampleService .ok sampleTurn [sampleRecord]
    "what are your hours" "CA123" "We\x27re open 9 to 5." rfl rfl
    ⟨sampleRecord, by simp, rfl⟩ rfl (by intro e; exact StoreOutcome.noConfusion)

/-- C4 (counterexample): the text-generation call is rejected and the store update throws: the
document is the handler's own apology line alone, which is not the fixed apology string of the
reply generator, and it holds no capture directive and no closing line. -/
theorem C4_update_throws_other_apology :
    (processSpeechWebhook (fun _ => .rejected "timeout") (.thrown "fetch failed") sampleTurn
        [sampleRecord]).2.document = [.say (plainSay speechApology)] ∧
      speechApology ≠ aiApology :=
  ⟨rfl, by decide⟩

/-- C4 (amended): for every speech turn in which the text-generation call is rejected (it
raises or times out) and the store update does not throw, the document is the one of a
successful turn with the fixed apology string as the reply: the apology spoken, the
speech-capture directive (speech, timeout 5, action `/webhook/process-speech`), the closing
line, and the hang-up. -/
theorem C4_generation_failure_keeps_structure (openai : ChatRequest → ServiceOutcome)
    (update : StoreOutcome) (body : WebhookBody) (calls : List CallRecord) (e : String)
    (hfail : openai (chatRequest body.SpeechResult "") = .rejected e)
    (hnt : ∀ m, update ≠ .thrown m) :
    (processSpeechWebhook openai update body calls).2.document =
      [ .say { voice := some "alice", language := some "en-US", text := some aiApology },
        .gather "speech" 5 "/webhook/process-speech" [plainSay secondPromptText],
        .say (plainSay closingText),
        .hangup ] ∧
    aiApology =
      "I\x27m sorry, I\x27m having trouble processing your request right now. Please try again." ∧
    (processSpeechWebhook openai update body calls).2.document = speechDocument (.str aiApology) := by
  have hr : getAIResponse openai body.SpeechResult "" = .ok (.str aiApology) := by
    simp only [getAIResponse, getAIResponseTry, hfail]
    rfl
  rw [processSpeechWebhook_eq openai update body calls _ hr]
  cases update with
  | ok => exact ⟨rfl, rfl, rfl⟩
  | reportedError m => exact ⟨rfl, rfl, rfl⟩
  | thrown m => exact absurd rfl (hnt m)

/-- C4 (witness): a timed-out generation with a store that applies the update. -/
theorem C4_generation_failure_keeps_structure_witness :
    (processSpeechWebhook (fun _ => .rejected "timeout") .ok sampleTurn [sampleRecord]).2.document =
      [ .say { voice := some "alice", language := some "en-US", text := some aiApology },
        .gather "speech" 5 "/webhook/process-speech" [plainSay secondPromptText],
        .say (plainSay closingText),
        .hangup ] ∧
    aiApology =
      "I\x27m sorry, I\x27m having trouble processing your request right now. Please try again." ∧
    (processSpeechWebhook (fun _ => .rejected "timeout") .ok sampleTurn [sampleRecord]).2.document
      = speechDocument (.str aiApology) :=
  C4_generation_failure_keeps_structure (fun _ => .rejected "timeout") .ok sampleTurn
    [sampleRecord] "timeout" rfl (by intro m; exact StoreOutcome.noConfusion)

/-- C5 (counterexample): a speech turn whose call id matches no stored record, with a store
that applies the update, when the reply generator returns `null` (a completion whose content is
`null`): the table is unchanged, but the document speaks no reply: it starts with the capture
directive. -/
theorem C5_null_reply_not_spoken :
    getAIResponse (answering .null) sampleStrayTurn.SpeechResult "" = .ok .null ∧
      (processSpeechWebhook (answering .null) .ok sampleStrayTurn [sampleRecord]).1
        = [sampleRecord] ∧
      (processSpeechWebhook (answering .null) .ok sampleStrayTurn [sampleRecord]).2.document =
        [ .gather "speech" 5 "/webhook/process-speech"
            [{ voice := none, language := none
               text := some "Is there anything else I can help you with?" }],
          .say { voice := none, language := none
                 text := some "Thank you for calling. Have a great day!" },
          .hangup ] :=
  ⟨rfl, rfl, rfl⟩

/-- C5 (amended): for every speech turn whose call id matches no stored record, the update the
store applies is a no-op that does not raise (it returns without an error and the state is as
before), the set of call records is unchanged whatever the outcome of the store call, and
whenever the store call does not throw and the reply generator returned a text, the document
speaks that text as its first element, before the capture directive, the closing line and the
hang-up. -/
theorem C5_unmatched_update_is_noop (openai : ChatRequest → ServiceOutcome)
    (body : WebhookBody) (calls : List CallRecord)
    (hno : ∀ rec ∈ calls, eqCallSid body.CallSid rec = false) :
    (∀ (p : CallPatch) (twiml : List Verb),
      (supabaseUpdateCalls .ok p body.CallSid).run.run { calls := calls, twiml := twiml }
        = (.ok none, { calls := calls, twiml := twiml })) ∧
    (∀ update, (processSpeechWebhook openai update body calls).1 = calls) ∧
    (∀ update text, (∀ e, update ≠ .thrown e) →
      getAIResponse openai body.SpeechResult "" = .ok (.str text) →
      (processSpeechWebhook openai update body calls).2.document =
        [ .say { voice := some "alice", language := some "en-US", text := some text },
          .gather "speech" 5 "/webhook/process-speech"
            [{ voice := none, language := none
               text := some "Is there anything else I can help you with?" }],
          .say { voice := none, language := none
                 text := some "Thank you for calling. Have a great day!" },
          .hangup ]) := by
  obtain ⟨r, hr⟩ := getAIResponse_returns openai body.SpeechResult ""
  refine ⟨?_, ?_, ?_⟩
  · intro p twiml
    show (Except.ok none, ({ calls := updateRows p body.CallSid calls, twiml := twiml } :
      HandlerState)) = _
    rw [updateRows_unmatched p body.CallSid calls hno]
  · intro update
    rw [processSpeechWebhook_eq openai update body calls r hr]
    cases update with
    | ok => exact updateRows_unmatched _ _ calls hno
    | reportedError m => rfl
    | thrown m => rfl
  · intro update text hnt htext
    rw [processSpeechWebhook_eq openai update body calls _ htext]
    cases update with
    | ok => rfl
    | reportedError m => rfl
    | thrown m => exact absurd rfl (hnt m)

/-- C5 (witness): a speech turn for call id `CA999` on a table that holds `CA123` only. -/
theorem C5_unmatched_update_is_noop_witness :
    (processSpeechWebhook sampleService .ok sampleStrayTurn [sampleRecord]).1 = [sampleRecord] ∧
    (processSpeechWebhook sampleService .ok sampleStrayTurn [sampleRecord]).2.document =
      [ .say { voice := some "alice", language := some "en-US"
               text := some "We\x27re open 9 to 5." },
        .gather "speech" 5 "/webhook/process-speech"
          [{ voice := none, language := none
             text := some "Is there anything else I can help you with?" }],
        .say { voice := none, language := none
               text := some "Thank you for calling. Have a great day!" },
        .hangup ] :=
  ⟨(C5_unmatched_update_is_noop sampleService sampleStrayTurn [sampleRecord] (by decide)).2.1 .ok,
    (C5_unmatched_update_is_noop sampleService sampleStrayTurn [sampleRecord] (by decide)).2.2
      .ok "We\x27re open 9 to 5." (by intro e; exact StoreOutcome.noConfusion) rfl⟩

/-- C6 (counterexample): the service answers with a choice whose message has no content (absent,
or `null`): `getAIResponse` returns that absent value, not the fixed apology string. -/
theorem C6_missing_content_not_apology :
    getAIResponse (answering .undefined) (some "what are your hours") "" = .ok .undefined ∧
      getAIResponse (answering .null) (some "what are your hours") "" = .ok .null ∧
      JsStr.undefined ≠ .str aiApology ∧ JsStr.null ≠ .str aiApology :=
  ⟨rfl, rfl, by decide, by decide⟩

/-- C6 (amended): `getAIResponse` never raises: for every utterance and context it returns a
value. A rejected call (thrown error, timeout) and a response whose reading throws (no choices
list, an empty choices list, a first choice with no message) give the fixed apology string; a
first choice that has a message gives that message's content as it is, also when the content is
absent. -/
theorem C6_getAIResponse_never_raises (openai : ChatRequest → ServiceOutcome)
    (u : Option String) (context : String) :
    (∃ v, getAIResponse openai u context = .ok v) ∧
    (∀ e, openai (chatRequest u context) = .rejected e →
      getAIResponse openai u context = .ok (.str aiApology)) ∧
    (openai (chatRequest u context) = .resolved { choices := none } →
      getAIResponse openai u context = .ok (.str aiApology)) ∧
    (openai (chatRequest u context) = .resolved { choices := some [] } →
      getAIResponse openai u context = .ok (.str aiApology)) ∧
    (∀ rest, openai (chatRequest u context)
        = .resolved { choices := some ({ message := none } :: rest) } →
      getAIResponse openai u context = .ok (.str aiApology)) ∧
    (∀ m rest, openai (chatRequest u context)
        = .resolved { choices := some ({ message := some m } :: rest) } →
      getAIResponse openai u context = .ok m.content) :=
  ⟨getAIResponse_returns openai u context, getAIResponse_cases openai u context⟩

/-- C6 (witness): a timed-out call and an empty choices list both give the apology string. -/
theorem C6_getAIResponse_never_raises_witness :
    getAIResponse (fun _ => .rejected "timeout") (some "what are your hours") ""
        = .ok (.str aiApology) ∧
      getAIResponse (fun _ => .resolved { choices := some [] }) (some "what are your hours") ""
        = .ok (.str aiApology) :=
  ⟨(C6_getAIResponse_never_raises (fun _ => .rejected "timeout")
      (some "what are your hours") "").2.1 "timeout" rfl,
    (C6_getAIResponse_never_raises (fun _ => .resolved { choices := some [] })
      (some "what are your hours") "").2.2.2.1 rfl⟩

/-- C7 (counterexample): a successful completion whose content is the empty string makes
`getAIResponse` return the empty string, and one whose content is `null` makes it return
`null`, which is no string at all. -/
theorem C7_empty_content_returned :
    getAIResponse (answering (.str "")) (some "what are your hours") "" = .ok (.str "") ∧
      getAIResponse (answering .null) (some "what are your hours") "" = .ok .null :=
  ⟨rfl, rfl⟩

/-- C7 (amended): for every utterance, context and outcome of the text-generation service, the
value `getAIResponse` returns is a non-empty string, except when the service answers with a
first choice whose message content is empty or absent: that content is returned as it is. -/
theorem C7_reply_nonempty_unless_content_empty (openai : ChatRequest → ServiceOutcome)
    (u : Option String) (context : String) :
    (∃ s, s ≠ "" ∧ getAIResponse openai u context = .ok (.str s)) ∨
    (∃ m rest, openai (chatRequest u context)
        = .resolved { choices := some ({ message := some m } :: rest) } ∧
      (m.content = .str "" ∨ m.content = .null ∨ m.content = .undefined) ∧
      getAIResponse openai u context = .ok m.content) := by
  have apology_ne : aiApology ≠ "" := by decide
  obtain ⟨hrej, hnone, hnil, hnomsg, hmsg⟩ := getAIResponse_cases openai u context
  cases h : openai (chatRequest u context) with
  | rejected e => exact Or.inl ⟨aiApology, apology_ne, hrej e h⟩
  | resolved c =>
    obtain ⟨choices⟩ := c
    cases choices with
    | none => exact Or.inl ⟨aiApology, apology_ne, hnone h⟩
    | some l =>
      cases l with
      | nil => exact Or.inl ⟨aiApology, apology_ne, hnil h⟩
      | cons ch rest =>
        obtain ⟨msg⟩ := ch
        cases msg with
        | none => exact Or.inl ⟨aiApology, apology_ne, hnomsg rest h⟩
        | some m =>
          have hm := hmsg m rest h
          cases hc : m.content with
          | undefined => exact Or.inr ⟨m, rest, rfl, Or.inr (Or.inr hc), hm⟩
          | null => exact Or.inr ⟨m, rest, rfl, Or.inr (Or.inl hc), hm⟩
          | str t =>
            by_cases ht : t = ""
            · exact Or.inr ⟨m, rest, rfl, Or.inl (by rw [hc, ht]), hm⟩
            · exact Or.inl ⟨t, ht, by rw [hm, hc]⟩

/-- C8: for every start-of-call request whose insert does not throw, the document is exactly
the spoken greeting, one speech-capture directive (input `speech`, timeout 5, action
`/webhook/process-speech`) holding a spoken prompt, and the fallback line, in this order; the
capture directive is the only one and nothing follows the fallback line. -/
theorem C8_voice_document_shape (insert : StoreOutcome) (now : Nat) (body : WebhookBody)
    (calls : List CallRecord) (hnt : ∀ e, insert ≠ .thrown e) :
    (voiceWebhook insert now body calls).2.document =
      [ .say { voice := some "alice", language := some "en-US", text := some greetingText },
        .gather "speech" 5 "/webhook/process-speech"
          [{ voice := none, language := none, text := some firstPromptText }],
        .say { voice := none, language := none, text := some noInputText } ] ∧
    ((voiceWebhook insert now body calls).2.document.filter Verb.isGather).length = 1 ∧
    (voiceWebhook insert now body calls).2.document.drop 3 = [] := by
  rw [voiceWebhook_eq]
  cases insert with
  | ok => exact ⟨rfl, rfl, rfl⟩
  | reportedError m => exact ⟨rfl, rfl, rfl⟩
  | thrown e => exact absurd rfl (hnt e)

/-- C8 (witness): the start of the sample call with a store that applies the insert. -/
theorem C8_voice_document_shape_witness :
    (voiceWebhook .ok 0 sampleStart []).2.document =
      [ .say { voice := some "alice", language := some "en-US", text := some greetingText },
        .gather "speech" 5 "/webhook/process-speech"
          [{ voice := none, language := none, text := some firstPromptText }],
        .say { voice := none, language := none, text := some noInputText } ] ∧
    ((voiceWebhook .ok 0 sampleStart []).2.document.filter Verb.isGather).length = 1 ∧
    (voiceWebhook .ok 0 sampleStart []).2.document.drop 3 = [] :=
  C8_voice_document_shape .ok 0 sampleStart [] (by intro e; exact StoreOutcome.noConfusion)

/-- C9 (counterexample): a speech turn whose store update throws is answered with a document
that is the apology line alone, with no capture directive, no closing line, and a last element
that is not a hang-up; and a speech turn whose reply generator returns `null` is answered, the
update applied, with a document that holds no spoken reply before the capture directive. -/
theorem C9_update_throws_no_hangup :
    (processSpeechWebhook sampleService (.thrown "fetch failed") sampleTurn
        [sampleRecord]).2.document = [.say (plainSay speechApology)] ∧
      (processSpeechWebhook sampleService (.thrown "fetch failed") sampleTurn
        [sampleRecord]).2.document.getLast? ≠ some .hangup ∧
      getAIResponse (answering .null) sampleTurn.SpeechResult "" = .ok .null ∧
      (processSpeechWebhook (answering .null) .ok sampleTurn [sampleRecord]).2.document =
        [ .gather "speech" 5 "/webhook/process-speech"
            [{ voice := none, language := none
               text := some "Is there anything else I can help you with?" }],
          .say { voice := none, language := none
                 text := some "Thank you for calling. Have a great day!" },
          .hangup ] :=
  ⟨rfl, by decide, rfl, rfl⟩

/-- C9 (amended): for every speech-turn request whose store update does not throw, the document
is exactly, in this order: the reply returned by the reply generator spoken (a `<Say>` with that
text when it returned a text, a `<Say>` without text when it returned `undefined`, and no
element when it returned `null`), one speech-capture directive with timeout 5, the closing line,
and a hang-up as the last element. -/
theorem C9_speech_document_shape (openai : ChatRequest → ServiceOutcome)
    (update : StoreOutcome) (body : WebhookBody) (calls : List CallRecord)
    (hnt : ∀ e, update ≠ .thrown e) :
    ∃ r, getAIResponse openai body.SpeechResult "" = .ok r ∧
      (∀ text, r = .str text →
        (processSpeechWebhook openai update body calls).2.document =
          [ .say { voice := some "alice", language := some "en-US", text := some text },
            .gather "speech" 5 "/webhook/process-speech"
              [{ voice := none, language := none
                 text := some "Is there anything else I can help you with?" }],
            .say { voice := none, language := none
                   text := some "Thank you for calling. Have a great day!" },
            .hangup ]) ∧
      (r = .undefined →
        (processSpeechWebhook openai update body calls).2.document =
          [ .say { voice := some "alice", language := some "en-US", text := none },
            .gather "speech" 5 "/webhook/process-speech"
              [{ voice := none, language := none
                 text := some "Is there anything else I can help you with?" }],
            .say { voice := none, language := none
                   text := some "Thank you for calling. Have a great day!" },
            .hangup ]) ∧
      (r = .null →
        (processSpeechWebhook openai update body calls).2.document =
          [ .gather "speech" 5 "/webhook/process-speech"
              [{ voice := none, language := none
                 text := some "Is there anything else I can help you with?" }],
            .say { voice := none, language := none
                   text := some "Thank you for calling. Have a great day!" },
            .hangup ]) ∧
      (processSpeechWebhook openai update body calls).2.document.getLast? = some .hangup := by
  obtain ⟨r, hr⟩ := getAIResponse_returns openai body.SpeechResult ""
  refine ⟨r, hr, ?_⟩
  rw [processSpeechWebhook_eq openai update body calls r hr]
  cases update with
  | thrown e => exact absurd rfl (hnt e)
  | ok =>
    refine ⟨?_, ?_, ?_, ?_⟩
    · rintro text rfl
      rfl
    · rintro rfl
      rfl
    · rintro rfl
      rfl
    · cases r <;> rfl
  | reportedError m =>
    refine ⟨?_, ?_, ?_, ?_⟩
    · rintro text rfl
      rfl
    · rintro rfl
      rfl
    · rintro rfl
      rfl
    · cases r <;> rfl

/-- C9 (witness): the sample speech turn with a store that applies the update. -/
theorem C9_speech_document_shape_witness :
    (processSpeechWebhook sampleService .ok sampleTurn [sampleRecord]).2.document =
      [ .say { voice := some "alice", language := some "en-US"
               text := some "We\x27re open 9 to 5." },
        .gather "speech" 5 "/webhook/process-speech"
          [{ voice := none, language := none
             text := some "Is there anything else I can help you with?" }],
        .say { voice := none, language := none
               text := some "Thank you for calling. Have a great day!" },
        .hangup ] := by
  obtain ⟨r, hr, hstr, _⟩ := C9_speech_document_shape sampleService .ok sampleTurn [sampleRecord]
    (by intro e; exact StoreOutcome.noConfusion)
  exact hstr "We\x27re open 9 to 5." (Except.ok.inj (hr.symm.trans rfl))

/-- C10 (counterexample): after the start of call `CA123` and a first speech turn that attached
a transcript and a reply, a second speech turn for the same call id replaces both. -/
theorem C10_second_turn_overwrites :
    (processSpeechWebhook sampleService .ok sampleTurn [sampleRecord]).1 =
        [{ sampleRecord with
            transcript := some "what are your hours"
            ai_response := some "We\x27re open 9 to 5." }] ∧
      (processSpeechWebhook sampleService .ok sampleSecondTurn
          (processSpeechWebhook sampleService .ok sampleTurn [sampleRecord]).1).1 =
        [{ sampleRecord with
            transcript := some "where are you located"
            ai_response := some "We are at 1 Main Street." }] :=
  ⟨rfl, rfl⟩

/-- C10 (amended): a call record is not frozen by its first speech turn. Every speech turn for
call id `c` whose update succeeds sets the transcript and the AI response of every record with
call id `c` to the utterance and the reply of that turn, so after an earlier turn for the same
call id (whatever its outcome) the record carries the values of the later turn. -/
theorem C10_later_turn_replaces_transcript (openai : ChatRequest → ServiceOutcome)
    (first : StoreOutcome) (b1 b2 : WebhookBody) (calls : List CallRecord) (c u2 r2 : String)
    (hc : b2.CallSid = some c) (hu : b2.SpeechResult = some u2)
    (hr : getAIResponse openai b2.SpeechResult "" = .ok (.str r2)) :
    ∀ rec ∈ (processSpeechWebhook openai .ok b2
        (processSpeechWebhook openai first b1 calls).1).1,
      rec.call_sid = some c → rec.transcript = some u2 ∧ rec.ai_response = some r2 := by
  intro rec hrec hsid
  rw [processSpeechWebhook_eq openai .ok b2 _ _ hr] at hrec
  simp only [hu, hc] at hrec
  exact updateRows_matching u2 r2 c _ rec hrec hsid

/-- C10 (witness): the two turns of the sample call; the record of the call is in the table
after the second turn and carries the second utterance and reply. -/
theorem C10_later_turn_replaces_transcript_witness :
    (∃ rec ∈ (processSpeechWebhook sampleService .ok sampleSecondTurn
        (processSpeechWebhook sampleService .ok sampleTurn [sampleRecord]).1).1,
      rec.call_sid = some "CA123") ∧
    ((processSpeechWebhook sampleService .ok sampleSecondTurn
        (processSpeechWebhook sampleService .ok sampleTurn [sampleRecord]).1).1.map
          (fun rec => (rec.transcript, rec.ai_response))) =
      [(some "where are you located", some "We are at 1 Main Street.")] := by
  have hmem : ({ sampleRecord with
      transcript := some "where are you located"
      ai_response := some "We are at 1 Main Street." } : CallRecord) ∈
      (processSpeechWebhook sampleService .ok sampleSecondTurn
        (processSpeechWebhook sampleService .ok sampleTurn [sampleRecord]).1).1 := by decide
  have h := C10_later_turn_replaces_transcript sampleService .ok sampleTurn sampleSecondTurn
    [sampleRecord] "CA123" "where are you located" "We are at 1 Main Street." rfl rfl rfl
    _ hmem rfl
  exact ⟨⟨_, hmem, rfl⟩, congrArg₂ (fun t a => [(t, a)]) h.1 h.2⟩

/-- C11: two start-of-call invocations with the same call id and caller number, both inserts
succeeding, leave two separate records for that call id: each invocation adds exactly one record
to the table, whatever the table already holds (no lookup, no deduplication). -/
theorem C11_two_starts_two_records (first second : Nat) (body : WebhookBody)
    (calls : List CallRecord) :
    (voiceWebhook .ok first body calls).1.length = calls.length + 1 ∧
    (voiceWebhook .ok second body (voiceWebhook .ok first body calls).1).1.length
      = (voiceWebhook .ok first body calls).1.length + 1 ∧
    (voiceWebhook .ok second body (voiceWebhook .ok first body calls).1).1
      = calls ++ [newCallRecord body first, newCallRecord body second] ∧
    (newCallRecord body first).call_sid = body.CallSid ∧
    (newCallRecord body second).call_sid = body.CallSid ∧
    (newCallRecord body first).caller_number = body.From ∧
    (newCallRecord body second).caller_number = body.From ∧
    ((voiceWebhook .ok second body (voiceWebhook .ok first body calls).1).1.countP
        fun r => r.call_sid = body.CallSid)
      = (calls.countP fun r => r.call_sid = body.CallSid) + 2 := by
  simp only [voiceWebhook_eq]
  refine ⟨by simp, by simp, by simp, rfl, rfl, rfl, rfl, ?_⟩
  simp [List.countP_append, List.countP_cons, newCallRecord]

/-- C12: a speech turn changes nothing but the transcript and the AI response of the records
whose call id is the one of the request: whatever the store and the text generation do, the
table afterwards holds, place by place, a row with the caller number, call id, status, duration
and creation time of the row before, and a row with a different call id is unchanged in all
fields. -/
theorem C12_speech_turn_frame (openai : ChatRequest → ServiceOutcome) (update : StoreOutcome)
    (body : WebhookBody) (calls : List CallRecord) :
    List.Forall₂
      (fun old new =>
        new.caller_number = old.caller_number ∧ new.call_sid = old.call_sid ∧
        new.status = old.status ∧ new.duration = old.duration ∧
        new.created_at = old.created_at ∧
        (∀ c, body.CallSid = some c → old.call_sid ≠ some c → new = old))
      calls (processSpeechWebhook openai update body calls).1 := by
  obtain ⟨r, _, hcalls⟩ := processSpeechWebhook_calls openai update body calls
  rw [hcalls]
  by_cases hu : update = .ok
  · rw [if_pos hu]
    refine (updateRows_frame _ body.CallSid calls).imp ?_
    intro old new h
    obtain ⟨⟨h1, h2, h3, h4, h5⟩, hkeep⟩ := h
    refine ⟨h1, h2, h3, h4, h5, ?_⟩
    intro c hc hne
    apply hkeep
    unfold eqCallSid
    cases hsid : old.call_sid with
    | none => rfl
    | some s =>
      have : s ≠ c := fun h => hne (by rw [hsid, h])
      simp [hc, this]
  · rw [if_neg hu, List.forall₂_same]
    exact fun r _ => ⟨rfl, rfl, rfl, rfl, rfl, fun _ _ _ => rfl⟩

/-- C13: no route deletes a call record. For every request and every outcome of the
collaborators the handler ends without an exception, and every record of the `calls` table is
still a record of the table afterwards, at its place; unless the request is a speech turn the
old table is a prefix of the new one, and unless it is a webhook the table is unchanged (the
delete routes touch `products` and `faqs` only). -/
theorem C13_no_call_record_deleted (env : Env) (req : Request) (db : Database) :
    ∃ db' reply, handle env req db = .ok (db', reply) ∧
      CallsKept db.calls db'.calls ∧
      ((∀ b, req ≠ .processSpeech b) → db.calls <+: db'.calls) ∧
      ((∀ b, req ≠ .voice b) → (∀ b, req ≠ .processSpeech b) → db'.calls = db.calls) := by
  by_cases hv : ∃ b, req = .voice b
  · obtain ⟨b, rfl⟩ := hv
    refine ⟨_, _, handle_voice env b db, ?_, ?_, fun h => absurd rfl (h b)⟩
    · show CallsKept db.calls (voiceWebhook env.store env.createdAt b db.calls).1
      rw [voiceWebhook_eq]
      cases env.store
      · exact callsKept_append _ _
      · simpa using callsKept_append db.calls []
      · simpa using callsKept_append db.calls []
    · intro _
      show db.calls <+: (voiceWebhook env.store env.createdAt b db.calls).1
      rw [voiceWebhook_eq]
      cases env.store
      · exact List.prefix_append _ _
      · exact List.prefix_refl _
      · exact List.prefix_refl _
  · by_cases hs : ∃ b, req = .processSpeech b
    · obtain ⟨b, rfl⟩ := hs
      refine ⟨_, _, handle_processSpeech env b db, ?_, fun h => absurd rfl (h b),
        fun _ h => absurd rfl (h b)⟩
      show CallsKept db.calls (processSpeechWebhook env.openai env.store b db.calls).1
      obtain ⟨r, _, hcalls⟩ := processSpeechWebhook_calls env.openai env.store b db.calls
      rw [hcalls]
      by_cases hu : env.store = .ok
      · rw [if_pos hu]
        exact callsKept_updateRows _ _ _
      · rw [if_neg hu]
        simpa using callsKept_append db.calls []
    · obtain ⟨db', reply, hrun, hcalls⟩ := handle_rest env req db
        (fun b h => hv ⟨b, h⟩) (fun b h => hs ⟨b, h⟩)
      refine ⟨db', some reply, hrun, ?_, fun _ => ?_, fun _ _ => hcalls⟩
      · rw [hcalls]
        simpa using callsKept_append db.calls []
      · rw [hcalls]

/-- C14: the request a speech turn sends to the reply generator depends on the captured
utterance only. For two speech turns with the same `SpeechResult`, whatever their call ids and
whatever the tables hold, the chat request built is the same (the fixed system message with an
empty context, then the utterance as the user message), so the reply and the response are the
same; and the handler reads the service at that one request only. -/
theorem C14_prompt_depends_on_utterance_only (openai : ChatRequest → ServiceOutcome)
    (update : StoreOutcome) (b1 b2 : WebhookBody) (calls1 calls2 : List CallRecord)
    (hsame : b1.SpeechResult = b2.SpeechResult) :
    chatRequest b1.SpeechResult "" = chatRequest b2.SpeechResult "" ∧
    (chatRequest b1.SpeechResult "").messages =
      [ { role := "system"
          content := some "You are a helpful business assistant.  Keep responses concise and friendly. If asked about orders or payments, guide them through the process." },
        { role := "user", content := b1.SpeechResult } ] ∧
    getAIResponse openai b1.SpeechResult "" = getAIResponse openai b2.SpeechResult "" ∧
    (processSpeechWebhook openai update b1 calls1).2
      = (processSpeechWebhook openai update b2 calls2).2 ∧
    (∀ other : ChatRequest → ServiceOutcome,
      other (chatRequest b1.SpeechResult "") = openai (chatRequest b1.SpeechResult "") →
      processSpeechWebhook other update b1 calls1 = processSpeechWebhook openai update b1 calls1) := by
  obtain ⟨r, hr⟩ := getAIResponse_returns openai b1.SpeechResult ""
  have hr2 : getAIResponse openai b2.SpeechResult "" = .ok r := by rw [← hsame]; exact hr
  refine ⟨by rw [hsame], ?_, by rw [hsame], ?_, ?_⟩
  · simp only [chatRequest]
    congr 2
  · rw [processSpeechWebhook_eq openai update b1 calls1 r hr,
      processSpeechWebhook_eq openai update b2 calls2 r hr2]
    cases update <;> rfl
  · intro other hother
    have hr3 : getAIResponse other b1.SpeechResult "" = .ok r := by
      rw [← hr]
      simp only [getAIResponse, getAIResponseTry, hother]
    rw [processSpeechWebhook_eq openai update b1 calls1 r hr,
      processSpeechWebhook_eq other update b1 calls1 r hr3]

/-- C14 (witness): the sample utterance sent for call `CA123` on a table with its record and
for call `CA999` on an empty table. -/
theorem C14_prompt_depends_on_utterance_only_witness :
    chatRequest sampleTurn.SpeechResult "" = chatRequest sampleStrayTurn.SpeechResult "" ∧
    (processSpeechWebhook sampleService .ok sampleTurn [sampleRecord]).2
      = (processSpeechWebhook sampleService .ok sampleStrayTurn []).2 :=
  ⟨(C14_prompt_depends_on_utterance_only sampleService .ok sampleTurn sampleStrayTurn
      [sampleRecord] [] rfl).1,
    (C14_prompt_depends_on_utterance_only sampleService .ok sampleTurn sampleStrayTurn
      [sampleRecord] [] rfl).2.2.2.1⟩

/-- C15: `sendWhatsAppMessage` never raises: for every phone number and message body it returns
a value, which is the payload of the gateway's response when the gateway call succeeds and
`null` when the gateway call fails. -/
theorem C15_sendWhatsAppMessage_never_raises (gateway : GatewayRequest → GatewayOutcome)
    (phone : Option String) (message : String) :
    (∃ v, sendWhatsAppMessage gateway phone message = .ok v) ∧
    (∀ data, gateway { phone := phone, text := message } = .resolved data →
      sendWhatsAppMessage gateway phone message = .ok data) ∧
    (∀ e, gateway { phone := phone, text := message } = .rejected e →
      sendWhatsAppMessage gateway phone message = .ok .null) := by
  refine ⟨sendWhatsAppMessage_returns gateway phone message, ?_, ?_⟩
  · intro data h
    simp only [sendWhatsAppMessage, sendWhatsAppMessageStep_run, h]
  · intro e h
    simp only [sendWhatsAppMessage, sendWhatsAppMessageStep_run, h]

/-- C15 (witness): a gateway that answers and a gateway that is down. -/
theorem C15_sendWhatsAppMessage_never_raises_witness :
    sendWhatsAppMessage (fun _ => .resolved (.str "Message queued")) (some "+15551234567")
        "Order Confirmed!" = .ok (.str "Message queued") ∧
      sendWhatsAppMessage (fun _ => .rejected "ECONNREFUSED") (some "+15551234567")
        "Order Confirmed!" = .ok .null :=
  ⟨(C15_sendWhatsAppMessage_never_raises (fun _ => .resolved (.str "Message queued"))
      (some "+15551234567") "Order Confirmed!").2.1 (.str "Message queued") rfl,
    (C15_sendWhatsAppMessage_never_raises (fun _ => .rejected "ECONNREFUSED")
      (some "+15551234567") "Order Confirmed!").2.2 "ECONNREFUSED" rfl⟩

/-- C16 (counterexample): two order requests whose insert succeeds, one without an `items`
list and one with `null` as an item: the order is stored, but the response is an error with
status 500, with a gateway that delivers and with a gateway that fails alike. -/
theorem C16_no_items_stored_but_error :
    handle sampleEnv (.processOrder sampleOrderWithoutItems) sampleDatabase =
        .ok ({ sampleDatabase with
            orders := sampleDatabase.orders ++
              [{ id := "42", customer_phone := some "+15551234567", items := none,
                 total := some 12, payment_intent_id := some "pi_1", status := "confirmed",
                 confirmation_number := "ORD-1700000000000", created_at := 9 }] },
          some { status := 500
                 body := .error
                   "Cannot read properties of undefined (reading \x27map\x27)" }) ∧
      handle sampleEnv (.processOrder sampleOrderWithNullItem) sampleDatabase =
        .ok ({ sampleDatabase with
            orders := sampleDatabase.orders ++
              [{ id := "42", customer_phone := some "+15551234567",
                 items := some [some { name := .str "Tea", quantity := some 2 }, none],
                 total := some 12, payment_intent_id := some "pi_1", status := "confirmed",
                 confirmation_number := "ORD-1700000000000", created_at := 9 }] },
          some { status := 500
                 body := .error
                   "Cannot read properties of null (reading \x27name\x27)" }) ∧
      handle { sampleEnv with gateway := fun _ => .rejected "ECONNREFUSED" }
          (.processOrder sampleOrderWithoutItems) sampleDatabase =
        handle sampleEnv (.processOrder sampleOrderWithoutItems) sampleDatabase ∧
      handle { sampleEnv with gateway := fun _ => .rejected "ECONNREFUSED" }
          (.processOrder sampleOrderWithNullItem) sampleDatabase =
        handle sampleEnv (.processOrder sampleOrderWithNullItem) sampleDatabase :=
  ⟨rfl, rfl, rfl, rfl⟩

/-- C16 (amended): for every process-order request whose `items` is a list with no `null`
entry and whose insert succeeds, the response is the success object with the inserted order and
the order is stored at the end of the `orders` table, whether the gateway delivers the
confirmation or fails; and for every process-order request the outcome is the same with any
other gateway. -/
theorem C16_order_placed_whatever_gateway (env : Env) (body : OrderBody) (db : Database) :
    (∀ items : List OrderItem, env.store = .ok → body.items = some (items.map some) →
      handle env (.processOrder body) db =
        .ok ({ db with
            orders := db.orders ++
              [{ id := env.newId, customer_phone := body.customerPhone, items := body.items,
                 total := body.total, payment_intent_id := body.paymentIntentId,
                 status := "confirmed", confirmation_number := "ORD-" ++ toString env.now,
                 created_at := env.createdAt }] },
          some { status := 200
                 body := .orderPlaced
                   { id := env.newId, customer_phone := body.customerPhone, items := body.items,
                     total := body.total, payment_intent_id := body.paymentIntentId,
                     status := "confirmed", confirmation_number := "ORD-" ++ toString env.now,
                     created_at := env.createdAt } })) ∧
    (∀ other : GatewayRequest → GatewayOutcome,
      handle { env with gateway := other } (.processOrder body) db
        = handle env (.processOrder body) db) := by
  obtain ⟨store, second, openai, gateway, stripe, now, newId, createdAt, numberText⟩ := env
  constructor
  · intro items hstore hitems
    simp only at hstore
    subst hstore
    simp only [handle]
    rw [(runApi_processOrder_ok gateway numberText now newId createdAt body db).1, hitems,
      confirmationMessage_map_some]
    simp only [newOrderRecord, hitems]
  · intro other
    cases store with
    | ok =>
      simp only [handle]
      rw [(runApi_processOrder_ok other numberText now newId createdAt body db).1,
        (runApi_processOrder_ok gateway numberText now newId createdAt body db).1]
    | reportedError m =>
      exact Eq.trans (b := .ok (db, some { status := 500, body := .error m })) rfl rfl
    | thrown m =>
      exact Eq.trans (b := .ok (db, some { status := 500, body := .error m })) rfl rfl

/-- C16 (witness): the sample order with a gateway that fails. -/
theorem C16_order_placed_whatever_gateway_witness :
    handle { sampleEnv with gateway := fun _ => .rejected "ECONNREFUSED" }
        (.processOrder sampleOrder) sampleDatabase =
      .ok ({ sampleDatabase with
          orders := sampleDatabase.orders ++
            [{ id := "42", customer_phone := some "+15551234567",
               items := some [some { name := .str "Tea", quantity := some 2 },
                 some { name := .str "Cup", quantity := some 1 }],
               total := some 12, payment_intent_id := some "pi_1", status := "confirmed",
               confirmation_number := "ORD-1700000000000", created_at := 9 }] },
        some { status := 200
               body := .orderPlaced
                 { id := "42", customer_phone := some "+15551234567",
                   items := some [some { name := .str "Tea", quantity := some 2 },
                     some { name := .str "Cup", quantity := some 1 }],
                   total := some 12, payment_intent_id := some "pi_1", status := "confirmed",
                   confirmation_number := "ORD-1700000000000", created_at := 9 } }) :=
  (C16_order_placed_whatever_gateway
    { sampleEnv with gateway := fun _ => .rejected "ECONNREFUSED" } sampleOrder
    sampleDatabase).1
    [{ name := .str "Tea", quantity := some 2 }, { name := .str "Cup", quantity := some 1 }]
    rfl rfl

/-- C17 (counterexample): a delete whose store call reports no error is answered with the
object `success: true`, which is not data of the store, and an update that matches no row is
answered with no body at all although the store reported no error. -/
theorem C17_success_without_store_data :
    handle sampleEnv (.deleteRow .products "1") sampleDatabase =
        .ok ({ sampleDatabase with products := [] }, some { status := 200, body := .success }) ∧
      handle sampleEnv (.putRow .products "99" [("name", .str "Coffee")]) sampleDatabase =
        .ok (sampleDatabase, some { status := 200, body := .row none }) :=
  ⟨rfl, rfl⟩

/-- C17 (amended): for each CRUD route on calls, orders, products and faqs, if the store call
reports an error with message `m` the response has status 500 and the body `error: m`, and the
tables are unchanged; if it reports no error the response has status 200, and its body is the
rows returned (newest first) for a list route, the first row the store returned for a create or
an update route (nothing when the update matched no row), and the object `success: true` for a
delete route. -/
theorem C17_crud_replies (env : Env) (db : Database) :
    (∀ m req, req.isCrud = true →
      handle { env with store := .reportedError m } req db
        = .ok (db, some { status := 500, body := .error m })) ∧
    handle { env with store := .ok } .getCalls db
      = .ok (db, some { status := 200
                        body := .calls (newestFirst CallRecord.created_at db.calls) }) ∧
    handle { env with store := .ok } .getOrders db
      = .ok (db, some { status := 200
                        body := .orders (newestFirst OrderRecord.created_at db.orders) }) ∧
    (∀ id status, handle { env with store := .ok } (.putOrder id status) db
      = .ok ({ db with orders := setOrderStatus id status db.orders },
          some { status := 200
                 body := .order
                   ((setOrderStatus id status db.orders).filter fun o => o.id = id).head? })) ∧
    (∀ t, handle { env with store := .ok } (.getRows t) db
      = .ok (db, some { status := 200
                        body := .rows (newestFirst Row.created_at (db.rowsOf t)) })) ∧
    (∀ t body, handle { env with store := .ok } (.postRow t body) db
      = .ok (db.withRows t
            (db.rowsOf t ++ [{ id := env.newId, created_at := env.createdAt, fields := body }]),
          some { status := 200
                 body := .row
                   (some { id := env.newId, created_at := env.createdAt, fields := body }) })) ∧
    (∀ t id body, handle { env with store := .ok } (.putRow t id body) db
      = .ok (db.withRows t (patchRows id body (db.rowsOf t)),
          some { status := 200
                 body := .row
                   ((patchRows id body (db.rowsOf t)).filter fun r => r.id = id).head? })) ∧
    (∀ t id, handle { env with store := .ok } (.deleteRow t id) db
      = .ok (db.withRows t ((db.rowsOf t).filter fun r => r.id ≠ id),
          some { status := 200, body := .success })) := by
  refine ⟨?_, rfl, rfl, fun _ _ => rfl, ?_, ?_, ?_, ?_⟩
  · intro m req hreq
    cases req with
    | getRows t => cases t <;> rfl
    | postRow t body => cases t <;> rfl
    | putRow t id body => cases t <;> rfl
    | deleteRow t id => cases t <;> rfl
    | getCalls => rfl
    | getOrders => rfl
    | putOrder id status => rfl
    | _ => exact absurd hreq Bool.false_ne_true
  · intro t
    cases t <;> rfl
  · intro t body
    cases t <;> rfl
  · intro t id body
    cases t <;> rfl
  · intro t id
    cases t <;> rfl

/-- C18 (counterexample): the calls query reports an error and returns no data, yet the
dashboard gets a successful response with statistics: no calls, and the orders counted. -/
theorem C18_reported_error_gives_statistics :
    handle { sampleEnv with store := .reportedError "connection refused" } .getStats
        sampleDatabase =
      .ok (sampleDatabase, some { status := 200, body := .stats 0 1 30 0 }) := by
  have h : handle { sampleEnv with store := .reportedError "connection refused" } .getStats
      sampleDatabase =
        .ok (sampleDatabase,
          some { status := 200, body := statsBody none (some sampleDatabase.orders) }) := rfl
  have hrev := revenue_whole sampleDatabase.orders [some 30] rfl (by decide)
  rw [h]
  simp only [statsBody, hrev, round_orZero_nan]
  rfl

/-- C18 (amended): for `GET /api/stats`, a failure of the store that is thrown by the calls or
by the orders query is surfaced as an error response (status 500 with the message); a query
that reports an error and returns no data is not: the response is a successful one, with the
statistics of an empty table in place of the table whose query failed. -/
theorem C18_stats_store_failure (env : Env) (db : Database) (m : String) :
    handle { env with store := .thrown m } .getStats db
      = .ok (db, some { status := 500, body := .error m }) ∧
    (∀ first, (∀ e, first ≠ .thrown e) →
      handle { env with store := first, secondStore := .thrown m } .getStats db
        = .ok (db, some { status := 500, body := .error m })) ∧
    handle { env with store := .reportedError m, secondStore := .ok } .getStats db
      = .ok (db, some { status := 200, body := statsBody none (some db.orders) }) ∧
    handle { env with store := .ok, secondStore := .reportedError m } .getStats db
      = .ok (db, some { status := 200, body := statsBody (some db.calls) none }) ∧
    (∀ m2, handle { env with store := .reportedError m, secondStore := .reportedError m2 }
        .getStats db
      = .ok (db, some { status := 200, body := .stats 0 0 0 0 })) ∧
    handle { env with store := .ok, secondStore := .ok } .getStats db
      = .ok (db, some { status := 200, body := statsBody (some db.calls) (some db.orders) }) := by
  refine ⟨?_, ?_, rfl, rfl, fun m2 => ?_, rfl⟩
  · cases h : env.secondStore <;> simp only [handle, getStats, h] <;> rfl
  · intro first hfirst
    cases first with
    | ok => rfl
    | reportedError e => rfl
    | thrown e => exact absurd rfl (hfirst e)
  · have h : handle { env with store := .reportedError m, secondStore := .reportedError m2 }
        .getStats db = .ok (db, some { status := 200, body := statsBody none none }) := rfl
    rw [h]
    simp only [statsBody, round_orZero_nan]
    rfl

/-- C19: every route handler is total with respect to collaborator failures: for every request
and every outcome of the store, the text generator, the messaging gateway and the payments API,
no exception escapes the handler and a response is sent; a failure of the payments API in
`POST /api/create-payment` gives status 500 with the message of the error. -/
theorem C19_handlers_total (env : Env) (req : Request) (db : Database) :
    (∃ db' reply, handle env req db = .ok (db', some reply)) ∧
    (∀ body m,
      env.stripe
          { amount := timesHundred body.amount
            currency := body.currency.getD "usd"
            orderId := body.orderId } = .rejected m →
      handle env (.createPayment body) db = .ok (db, some { status := 500, body := .error m })) := by
  constructor
  · by_cases hv : ∃ b, req = .voice b
    · obtain ⟨b, rfl⟩ := hv
      exact ⟨_, _, handle_voice env b db⟩
    · by_cases hs : ∃ b, req = .processSpeech b
      · obtain ⟨b, rfl⟩ := hs
        exact ⟨_, _, handle_processSpeech env b db⟩
      · obtain ⟨db', reply, hrun, _⟩ := handle_rest env req db
          (fun b h => hv ⟨b, h⟩) (fun b h => hs ⟨b, h⟩)
        exact ⟨db', reply, hrun⟩
  · intro body m h
    simp only [handle, createPayment, h]
    rfl

/-- C19 (witness): a declined card, and a speech turn with every collaborator failing. -/
theorem C19_handlers_total_witness :
    handle { sampleEnv with stripe := fun _ => .rejected "Your card was declined." }
        (.createPayment { amount := some 12, currency := none, orderId := some "7" })
        sampleDatabase =
      .ok (sampleDatabase, some { status := 500, body := .error "Your card was declined." }) ∧
    (∃ db' reply,
      handle { sampleEnv with store := .thrown "fetch failed", openai := fun _ => .rejected "timeout" }
        (.processSpeech sampleTurn) sampleDatabase = .ok (db', some reply)) :=
  ⟨(C19_handlers_total { sampleEnv with stripe := fun _ => .rejected "Your card was declined." }
      .getStats sampleDatabase).2 { amount := some 12, currency := none, orderId := some "7" }
      "Your card was declined." rfl,
    (C19_handlers_total
      { sampleEnv with store := .thrown "fetch failed", openai := fun _ => .rejected "timeout" }
      (.processSpeech sampleTurn) sampleDatabase).1⟩

/-- C20: each call turn performs at most one write to the call store. The `try` block of the
start-of-call handler is one insert followed by steps that do not write to the table, and the
one of the speech-turn handler is the reply generation, one update, and steps that do not
write; so the table after a start of call is the table before with at most the one record
appended, the table after a speech turn is the table before with at most the one update
applied, and a speech turn never changes the number of call records. -/
theorem C20_one_write_per_turn (openai : ChatRequest → ServiceOutcome) (o : StoreOutcome)
    (now : Nat) (body : WebhookBody) (calls : List CallRecord) :
    (∃ speak : Handler Unit, LeavesCalls speak ∧
      voiceTry o now body = (supabaseInsertCall o (newCallRecord body now) >>= fun _ => speak)) ∧
    (∃ speak : JsStr → Handler Unit, (∀ r, LeavesCalls (speak r)) ∧
      LeavesCalls (liftExcept (getAIResponse openai body.SpeechResult "") : Handler JsStr) ∧
      processSpeechTry openai o body =
        ((liftExcept (getAIResponse openai body.SpeechResult "") : Handler JsStr) >>= fun r =>
          supabaseUpdateCalls o { transcript := body.SpeechResult, ai_response := r }
            body.CallSid >>= fun _ => speak r)) ∧
    (∀ e, LeavesCalls (twimlAppend (.say (plainSay e)))) ∧
    (voiceWebhook o now body calls).1
      = (if o = .ok then calls ++ [newCallRecord body now] else calls) ∧
    (∃ r, getAIResponse openai body.SpeechResult "" = .ok r ∧
      (processSpeechWebhook openai o body calls).1 =
        if o = .ok then
          updateRows { transcript := body.SpeechResult, ai_response := r } body.CallSid calls
        else calls) ∧
    (processSpeechWebhook openai o body calls).1.length = calls.length := by
  refine ⟨⟨_, ?_, rfl⟩, ⟨_, ?_, ?_, rfl⟩, fun _ _ => rfl, ?_,
    processSpeechWebhook_calls openai o body calls, ?_⟩
  · intro s
    rfl
  · intro r s
    rfl
  · intro s
    obtain ⟨r, hr⟩ := getAIResponse_returns openai body.SpeechResult ""
    rw [hr]
    rfl
  · rw [voiceWebhook_eq]
    cases o <;> rfl
  · obtain ⟨r, _, hcalls⟩ := processSpeechWebhook_calls openai o body calls
    rw [hcalls]
    split <;> simp [updateRows]

/-- C21 (evaluation at the failing inputs): `amount * 100` is a product of doubles, not the
amount in cents. For the amount 19.99 the payments API is asked for 1998.9999999999998 (the
double `8791694975696895 / 4398046511104`), not for 1999: an API that creates an intent for
the first request only is answered with its client secret, an API that creates one for the
second only is answered with status 500. For the whole amount 360287970189641 the number
passed has the value 36028797018964096, which is not 100 times the amount. The currency is
`usd` when the request gives none, and the order id of the request is passed as metadata. -/
theorem C21_amount_not_in_cents :
    handle
        { sampleEnv with
          stripe := fun req =>
            if req = { amount := 36028797018964096, currency := "usd", orderId := some "7" } then
              .resolved "pi_1_secret_2"
            else .rejected "unexpected request" }
        (.createPayment { amount := some 360287970189641, currency := none, orderId := some "7" })
        sampleDatabase =
      .ok (sampleDatabase, some { status := 200, body := .clientSecret "pi_1_secret_2" }) ∧
    (36028797018964096 : ℚ) ≠ 100 * 360287970189641 ∧
    handle
        { sampleEnv with
          stripe := fun req =>
            if req = { amount := .finite (8791694975696895 / 4398046511104), currency := "usd",
                       orderId := some "7" } then
              .resolved "pi_1_secret_2"
            else .rejected "unexpected request" }
        (.createPayment
          { amount := some (JsNum.ofRat (1999 / 100)), currency := none, orderId := some "7" })
        sampleDatabase =
      .ok (sampleDatabase, some { status := 200, body := .clientSecret "pi_1_secret_2" }) ∧
    handle
        { sampleEnv with
          stripe := fun req =>
            if req = { amount := 1999, currency := "usd", orderId := some "7" } then
              .resolved "pi_1_secret_2"
            else .rejected "unexpected request" }
        (.createPayment
          { amount := some (JsNum.ofRat (1999 / 100)), currency := none, orderId := some "7" })
        sampleDatabase =
      .ok (sampleDatabase, some { status := 500, body := .error "unexpected request" }) := by
  have hbig : timesHundred (some 360287970189641) = 36028797018964096 := by
    show JsNum.ofRat (((360287970189641 : ℕ) : ℚ) * ((100 : ℕ) : ℚ)) =
      JsNum.finite ((36028797018964096 : ℕ) : ℚ)
    rw [Nat.cast_ofNat, Nat.cast_ofNat, Nat.cast_ofNat]
    exact ofRat_big_times
  have hfrac : timesHundred (some (JsNum.ofRat (1999 / 100))) =
      .finite (8791694975696895 / 4398046511104) := by
    rw [ofRat_1999_100]
    show JsNum.ofRat (5626684784446013 / 281474976710656 * ((100 : ℕ) : ℚ)) = _
    rw [Nat.cast_ofNat]
    exact ofRat_1999_100_times
  have hne2 : (⟨.finite (8791694975696895 / 4398046511104), "usd", some "7"⟩ : PaymentRequest) ≠
      ⟨1999, "usd", some "7"⟩ := by
    intro h
    injection h with h1 _ _
    have h2 : JsNum.finite (8791694975696895 / 4398046511104) =
      JsNum.finite ((1999 : ℕ) : ℚ) := h1
    injection h2 with h3
    norm_num at h3
  refine ⟨?_, ?_, ?_, ?_⟩
  · rw [createPayment_reply _ _ _ _ hbig]
    dsimp only [Option.getD_none]
    rw [if_pos rfl]
  · norm_num
  · rw [createPayment_reply _ _ _ _ hfrac]
    dsimp only [Option.getD_none]
    rw [if_pos rfl]
  · rw [createPayment_reply _ _ _ _ hfrac]
    dsimp only [Option.getD_none]
    rw [if_neg hne2]

/-- C22 (counterexample): two order requests, one without an `items` list and one with `null`
as an item, with a store that applies the insert: the response is an error with status 500,
and the `orders` table has the new order in it. -/
theorem C22_error_after_order_stored :
    handle sampleEnv (.processOrder sampleOrderWithoutItems) sampleDatabase =
        .ok ({ sampleDatabase with
            orders := sampleDatabase.orders ++
              [{ id := "42", customer_phone := some "+15551234567", items := none,
                 total := some 12, payment_intent_id := some "pi_1", status := "confirmed",
                 confirmation_number := "ORD-1700000000000", created_at := 9 }] },
          some { status := 500
                 body := .error
                   "Cannot read properties of undefined (reading \x27map\x27)" }) ∧
      handle sampleEnv (.processOrder sampleOrderWithNullItem) sampleDatabase =
        .ok ({ sampleDatabase with
            orders := sampleDatabase.orders ++
              [{ id := "42", customer_phone := some "+15551234567",
                 items := some [some { name := .str "Tea", quantity := some 2 }, none],
                 total := some 12, payment_intent_id := some "pi_1", status := "confirmed",
                 confirmation_number := "ORD-1700000000000", created_at := 9 }] },
          some { status := 500
                 body := .error
                   "Cannot read properties of null (reading \x27name\x27)" }) ∧
      (∀ order : OrderRecord, sampleDatabase.orders ++ [order] ≠ sampleDatabase.orders) :=
  ⟨rfl, rfl, fun order h => by simp at h⟩

/-- C22 (amended): `POST /api/process-order` is atomic on error for every request whose `items`
is a list with no `null` entry: the handler sends a response, and if the response is an error
(status 500), then no order was persisted: the tables are the tables before the request. -/
theorem C22_error_means_nothing_persisted (env : Env) (body : OrderBody) (db : Database)
    (items : List OrderItem) (hitems : body.items = some (items.map some)) :
    ∃ db' reply, handle env (.processOrder body) db = .ok (db', some reply) ∧
      (reply.status = 500 → db' = db ∧ db'.orders = db.orders) := by
  obtain ⟨store, second, openai, gateway, stripe, now, newId, createdAt, numberText⟩ := env
  cases store with
  | ok =>
    refine ⟨{ db with orders := db.orders ++ [newOrderRecord body now newId createdAt] },
      { status := 200, body := .orderPlaced (newOrderRecord body now newId createdAt) }, ?_, ?_⟩
    · simp only [handle]
      rw [(runApi_processOrder_ok gateway numberText now newId createdAt body db).1, hitems,
        confirmationMessage_map_some]
    · intro herror
      simp at herror
  | reportedError m =>
    exact ⟨db, { status := 500, body := .error m }, rfl, fun _ => ⟨rfl, rfl⟩⟩
  | thrown m =>
    exact ⟨db, { status := 500, body := .error m }, rfl, fun _ => ⟨rfl, rfl⟩⟩

/-- C22 (witness): the sample order with a store that reports an error on the insert: the
response is an error and the tables are as before. -/
theorem C22_error_means_nothing_persisted_witness :
    ∃ db' reply,
      handle { sampleEnv with store := .reportedError "duplicate key" }
          (.processOrder sampleOrder) sampleDatabase = .ok (db', some reply) ∧
      reply = { status := 500, body := .error "duplicate key" } ∧
      db' = sampleDatabase := by
  obtain ⟨db', reply, hrun, himp⟩ :=
    C22_error_means_nothing_persisted { sampleEnv with store := .reportedError "duplicate key" }
      sampleOrder sampleDatabase
      [{ name := .str "Tea", quantity := some 2 }, { name := .str "Cup", quantity := some 1 }] rfl
  have h : handle { sampleEnv with store := .reportedError "duplicate key" }
      (.processOrder sampleOrder) sampleDatabase =
        .ok (sampleDatabase, some { status := 500, body := .error "duplicate key" }) := rfl
  have heq := hrun.symm.trans h
  simp only [Except.ok.injEq, Prod.mk.injEq, Option.some.injEq] at heq
  exact ⟨db', reply, hrun, heq.2, (himp (by rw [heq.2])).1⟩

/-- C23: when the store call throws inside a webhook handler, the document is one spoken
apology line and nothing else: the line of the start-of-call handler, with no greeting and no
capture directive, and the line of the speech-turn handler, with no reply, no capture directive
and no hang-up. -/
theorem C23_store_throw_single_apology (openai : ChatRequest → ServiceOutcome) (e : String)
    (now : Nat) (body : WebhookBody) (calls : List CallRecord) :
    (voiceWebhook (.thrown e) now body calls).2.document =
      [.say { voice := none, language := none
              text := some "I\x27m sorry, there was an error. Please try calling again." }] ∧
    (processSpeechWebhook openai (.thrown e) body calls).2.document =
      [.say { voice := none, language := none
              text := some "I\x27m sorry, I had trouble understanding. Please try again." }] ∧
    (voiceWebhook (.thrown e) now body calls).2.document.all
      (fun v => !v.isGather && v != .hangup) = true ∧
    (processSpeechWebhook openai (.thrown e) body calls).2.document.all
      (fun v => !v.isGather && v != .hangup) = true := by
  obtain ⟨r, hr⟩ := getAIResponse_returns openai body.SpeechResult ""
  rw [voiceWebhook_eq, processSpeechWebhook_eq openai (.thrown e) body calls r hr]
  exact ⟨rfl, rfl, rfl, rfl⟩

/-- C24 (counterexample): after two starts of call `CA123`, a speech turn whose store update
reports an error attaches nothing: both records are left without transcript and AI response. -/
theorem C24_failed_update_attaches_nothing :
    (processSpeechWebhook sampleService (.reportedError "permission denied") sampleTurn
        (voiceWebhook .ok 1 sampleStart (voiceWebhook .ok 0 sampleStart []).1).1).1
      = [newCallRecord sampleStart 0, newCallRecord sampleStart 1] ∧
    (newCallRecord sampleStart 0).transcript = none ∧
    (newCallRecord sampleStart 1).transcript = none :=
  ⟨rfl, rfl, rfl⟩

/-- C24 (amended): a speech turn for call id `c` whose store update succeeds attaches the
utterance and the generated reply to every stored record whose call id is `c`: after two
successful starts of call for `c`, the one speech turn sets the transcript and the AI response
on both new records, and on every other record of `c` the table held. -/
theorem C24_turn_attaches_to_every_record (openai : ChatRequest → ServiceOutcome)
    (start turn : WebhookBody) (first second : Nat) (calls : List CallRecord) (c u r : String)
    (hstart : start.CallSid = some c) (hturn : turn.CallSid = some c)
    (hu : turn.SpeechResult = some u)
    (hr : getAIResponse openai turn.SpeechResult "" = .ok (.str r)) :
    (processSpeechWebhook openai .ok turn
        (voiceWebhook .ok second start (voiceWebhook .ok first start calls).1).1).1
      = updateRows { transcript := some u, ai_response := .str r } (some c) calls ++
        [ { newCallRecord start first with transcript := some u, ai_response := some r },
          { newCallRecord start second with transcript := some u, ai_response := some r } ] ∧
    (∀ rec ∈ (processSpeechWebhook openai .ok turn
        (voiceWebhook .ok second start (voiceWebhook .ok first start calls).1).1).1,
      rec.call_sid = some c → rec.transcript = some u ∧ rec.ai_response = some r) := by
  have hm : ∀ now, eqCallSid (some c) (newCallRecord start now) = true := by
    intro now
    simp [eqCallSid, newCallRecord, hstart]
  constructor
  · rw [processSpeechWebhook_eq openai .ok turn _ _ hr]
    simp only [voiceWebhook_eq, hu, hturn]
    simp [updateRows, hm, CallPatch.apply]
  · intro rec hrec hsid
    rw [processSpeechWebhook_eq openai .ok turn _ _ hr] at hrec
    simp only [hu, hturn] at hrec
    exact updateRows_matching u r c _ rec hrec hsid

/-- C24 (witness): two starts of call `CA123` and the sample speech turn. -/
theorem C24_turn_attaches_to_every_record_witness :
    (processSpeechWebhook sampleService .ok sampleTurn
        (voiceWebhook .ok 1 sampleStart (voiceWebhook .ok 0 sampleStart []).1).1).1
      = updateRows
          { transcript := some "what are your hours", ai_response := .str "We\x27re open 9 to 5." }
          (some "CA123") [] ++
        [ { newCallRecord sampleStart 0 with
              transcript := some "what are your hours"
              ai_response := some "We\x27re open 9 to 5." },
          { newCallRecord sampleStart 1 with
              transcript := some "what are your hours"
              ai_response := some "We\x27re open 9 to 5." } ] :=
  (C24_turn_attaches_to_every_record sampleService sampleStart sampleTurn 0 1 []
    "CA123" "what are your hours" "We\x27re open 9 to 5." rfl rfl rfl rfl).1

/-- C25 (counterexample): two orders with totals 0.1 and 0.2 and three calls of
6755399441055745, 0 and 0 seconds. The revenue sent is 0.30000000000000004 (the double
`1351079888211149 / 4503599627370496`), which is not the sum of the two totals, nor the number
0.3; the average sent is 2251799813685249, while the sum of the durations divided by 3 and
rounded to the nearest integer is 2251799813685248. -/
theorem C25_double_sums_differ :
    handle sampleEnv .getStats
        { sampleDatabase with
          calls := [callOf (some 6755399441055745), callOf (some 0), callOf (some 0)]
          orders := [orderOf (some (JsNum.ofRat (1 / 10))), orderOf (some (JsNum.ofRat (1 / 5)))] } =
      .ok ({ sampleDatabase with
          calls := [callOf (some 6755399441055745), callOf (some 0), callOf (some 0)]
          orders := [orderOf (some (JsNum.ofRat (1 / 10))), orderOf (some (JsNum.ofRat (1 / 5)))] },
        some { status := 200
               body := .stats 3 2 (.finite (1351079888211149 / 4503599627370496))
                 2251799813685249 }) ∧
    JsNum.ofRat (1 / 10) = .finite (3602879701896397 / 36028797018963968) ∧
    JsNum.ofRat (1 / 5) = .finite (3602879701896397 / 18014398509481984) ∧
    (3602879701896397 / 36028797018963968 + 3602879701896397 / 18014398509481984 : ℚ) ≠
      1351079888211149 / 4503599627370496 ∧
    JsNum.ofRat (3 / 10) ≠ .finite (1351079888211149 / 4503599627370496) ∧
    ⌊(6755399441055745 + 0 + 0 : ℚ) / 3 + 1 / 2⌋ = 2251799813685248 := by
  refine ⟨?_, ofRat_tenth, ofRat_fifth, by norm_num, ?_, ?_⟩
  · have h : handle sampleEnv .getStats
        { sampleDatabase with
          calls := [callOf (some 6755399441055745), callOf (some 0), callOf (some 0)]
          orders := [orderOf (some (JsNum.ofRat (1 / 10))),
            orderOf (some (JsNum.ofRat (1 / 5)))] } =
        .ok ({ sampleDatabase with
            calls := [callOf (some 6755399441055745), callOf (some 0), callOf (some 0)]
            orders := [orderOf (some (JsNum.ofRat (1 / 10))),
              orderOf (some (JsNum.ofRat (1 / 5)))] },
          some { status := 200
                 body := statsBody
                   (some [callOf (some 6755399441055745), callOf (some 0), callOf (some 0)])
                   (some [orderOf (some (JsNum.ofRat (1 / 10))),
                     orderOf (some (JsNum.ofRat (1 / 5)))]) }) := rfl
    have hrev : orZero (some (sumOfTotals
        [orderOf (some (JsNum.ofRat (1 / 10))), orderOf (some (JsNum.ofRat (1 / 5)))])) =
        .finite (1351079888211149 / 4503599627370496) := by
      unfold sumOfTotals
      rw [List.foldl_cons, List.foldl_cons, List.foldl_nil, orderOf_total, orderOf_total,
        ofRat_tenth, ofRat_fifth, orZero_finite, orZero_finite, zero_eq_finite, add_finite,
        ofRat_tenth_again, add_finite, ofRat_tenth_plus_fifth, orZero_finite]
    have havg : (orZero (some ((sumOfDurations
        [callOf (some 6755399441055745), callOf (some 0), callOf (some 0)]).divCount 3))).round =
        .finite 2251799813685249 := by
      have hsum := foldl_durations
        [callOf (some 6755399441055745), callOf (some 0), callOf (some 0)] 0 (by decide)
      have hnat : 0 + (List.map (fun c : CallRecord => c.duration.getD 0)
          [callOf (some 6755399441055745), callOf (some 0), callOf (some 0)]).sum =
          6755399441055745 := by decide
      rw [hnat] at hsum
      unfold sumOfDurations
      rw [show (0 : JsNum) = .finite ((0 : ℕ) : ℚ) from rfl, hsum,
        divCount_finite _ 3 (by decide), Nat.cast_ofNat, Nat.cast_ofNat, ofRat_third,
        orZero_finite, round_finite]
      have hfl : ⌊(4503599627370497 / 2 : ℚ) + 1 / 2⌋ = 2251799813685249 := by
        rw [Int.floor_eq_iff]
        constructor <;> norm_num
      rw [hfl]
      norm_num
    have hlit : (2251799813685249 : JsNum) = .finite 2251799813685249 := by
      show JsNum.finite ((2251799813685249 : ℕ) : ℚ) = _
      rw [Nat.cast_ofNat]
    rw [h, hlit]
    simp only [statsBody, hrev, List.length_cons, List.length_nil, havg]
  · rw [ofRat_three_tenths]
    intro h
    injection h with h
    norm_num at h
  · rw [Int.floor_eq_iff]
    constructor <;> norm_num

/-- C25 (amended): `GET /api/stats` computes, for every list of calls and of orders the store
returns, the number of calls and the number of orders; the sums are sums of doubles. When the
totals of the orders are whole numbers (a missing total counted as 0) whose sum is below
`2 ^ 53`, the revenue is their sum; when the durations of the calls (a missing duration counted
as 0) sum to less than `2 ^ 52` and there are fewer than `2 ^ 32` calls, the average is that
sum divided by the number of calls and rounded to the nearest integer, a half upwards; with no
calls the average is 0. -/
theorem C25_stats_numbers (env : Env) (db : Database) :
    (∃ revenue average,
      handle { env with store := .ok, secondStore := .ok } .getStats db =
        .ok (db, some { status := 200
                        body := .stats db.calls.length db.orders.length revenue average }) ∧
      (∀ totals : List (Option ℕ),
        db.orders.map (fun o => o.total) = totals.map (Option.map fun n : ℕ => JsNum.finite n) →
        (totals.map fun t => t.getD 0).sum < 2 ^ 53 →
        revenue = .finite (((totals.map fun t => t.getD 0).sum : ℕ) : ℚ)) ∧
      ((db.calls.map fun c => c.duration.getD 0).sum < 2 ^ 52 → db.calls.length < 2 ^ 32 →
        average = .finite ((roundedAverage (db.calls.map fun c => c.duration.getD 0).sum
          db.calls.length : ℕ) : ℚ)) ∧
      (db.calls = [] → average = 0)) ∧
    (∀ sum count : ℕ, 0 < count →
      roundedAverage sum count = ⌊(sum : ℚ) / count + 1 / 2⌋₊) ∧
    (∀ sum : ℕ, roundedAverage sum 0 = 0) := by
  refine ⟨⟨orZero (some (sumOfTotals db.orders)),
    (orZero (some ((sumOfDurations db.calls).divCount db.calls.length))).round, rfl, ?_, ?_, ?_⟩,
    fun sum count h => roundedAverage_eq_floor sum count h, fun _ => rfl⟩
  · intro totals htotals hsum
    exact revenue_whole db.orders totals htotals hsum
  · intro hsum hcount
    exact average_whole db.calls hsum hcount
  · intro hnil
    rw [hnil]
    exact round_orZero_nan

/-- C25 (witness): three calls of 10, 25 and an unknown number of seconds average to 12
(35 / 3 is nearer to 12 than to 11), and three orders with totals 30, none and 12 give a
revenue of 42. -/
theorem C25_stats_numbers_witness :
    handle { sampleEnv with store := .ok, secondStore := .ok } .getStats
        { sampleDatabase with
          calls := [callOf (some 10), callOf (some 25), callOf none]
          orders := [orderOf (some 30), orderOf none, orderOf (some 12)] } =
      .ok ({ sampleDatabase with
          calls := [callOf (some 10), callOf (some 25), callOf none]
          orders := [orderOf (some 30), orderOf none, orderOf (some 12)] },
        some { status := 200, body := .stats 3 3 42 12 }) := by
  obtain ⟨⟨revenue, average, hrun, hrevenue, haverage, _⟩, _, _⟩ :=
    C25_stats_numbers sampleEnv
      { sampleDatabase with
        calls := [callOf (some 10), callOf (some 25), callOf none]
        orders := [orderOf (some 30), orderOf none, orderOf (some 12)] }
  rw [hrun, hrevenue [some 30, none, some 12] rfl (by decide),
    haverage (by decide) (by decide)]
  rfl

/-- C26: for every process-order request that is answered with success (status 200), the
request has an item list `items` with no `null` entry, and the order in the response is the
order inserted at the end of the `orders` table: it has status `confirmed`, the customer phone,
total and payment intent id of the request, and the confirmation number `ORD-` followed by the
current timestamp. Exactly one request was sent to the messaging gateway, whatever the gateway
answers: it is addressed to the customer phone and its text holds that stored confirmation
number, the total, and the items written `name xquantity` and joined by `, ` in the order of the
list. -/
theorem C26_order_and_confirmation (env : Env) (body : OrderBody) (db db' : Database)
    (reply : HttpReply) (hrun : handle env (.processOrder body) db = .ok (db', some reply))
    (hok : reply.status = 200) :
    ∃ (items : List OrderItem) (order : OrderRecord),
      body.items = some (items.map some) ∧
      reply.body = .orderPlaced order ∧
      db' = { db with orders := db.orders ++ [order] } ∧
      order.status = "confirmed" ∧
      order.customer_phone = body.customerPhone ∧
      order.total = body.total ∧
      order.payment_intent_id = body.paymentIntentId ∧
      order.confirmation_number = "ORD-" ++ toString env.now ∧
      gatewayRequests
          (processOrder env.store env.gateway env.numberText env.now env.newId env.createdAt
            body) db =
        [{ phone := body.customerPhone
           text := "Order Confirmed! \nConfirmation #: " ++ order.confirmation_number ++
             "\nTotal: $" ++
             (match body.total with
               | none => "undefined"
               | some total => env.numberText total) ++
             "\nItems: " ++ ", ".intercalate (items.map fun item =>
               (match item.name with
                 | .undefined => "undefined"
                 | .null => "null"
                 | .str name => name) ++ " x" ++
               (match item.quantity with
                 | none => "undefined"
                 | some quantity => env.numberText quantity)) ++
             "\nThank you for your order!" }] := by
  obtain ⟨store, second, openai, gateway, stripe, now, newId, createdAt, numberText⟩ := env
  cases store with
  | ok =>
    simp only [handle] at hrun
    obtain ⟨hreply, hsent⟩ := runApi_processOrder_ok gateway numberText now newId createdAt body db
    rw [hreply] at hrun
    cases hm : confirmationMessage numberText
        (newOrderRecord body now newId createdAt).confirmation_number body.total body.items with
    | error e =>
      rw [hm] at hrun
      simp only [Except.ok.injEq, Prod.mk.injEq, Option.some.injEq] at hrun
      obtain ⟨_, hr⟩ := hrun
      rw [← hr] at hok
      simp at hok
    | ok message =>
      rw [hm] at hrun hsent
      simp only [Except.ok.injEq, Prod.mk.injEq, Option.some.injEq] at hrun
      obtain ⟨hdb, hr⟩ := hrun
      obtain ⟨items, hitems⟩ := confirmationMessage_ok numberText _ _ _ _ hm
      rw [hitems, confirmationMessage_map_some] at hm
      simp only [Except.ok.injEq] at hm
      refine ⟨items, newOrderRecord body now newId createdAt, hitems, ?_, hdb.symm, rfl, rfl, rfl,
        rfl, rfl, ?_⟩
      · rw [← hr]
      · rw [hsent, ← hm]
        have hname : ∀ item : OrderItem, item.name.inTemplate =
            (match item.name with
              | .undefined => "undefined"
              | .null => "null"
              | .str name => name) := fun item => by cases item.name <;> rfl
        have hnumber : ∀ n : Option JsNum, numberInTemplate numberText n =
            (match n with
              | none => "undefined"
              | some n => numberText n) := fun n => by cases n <;> rfl
        simp only [hname, hnumber]
  | reportedError m =>
    have h : handle ⟨.reportedError m, second, openai, gateway, stripe, now, newId, createdAt,
        numberText⟩ (.processOrder body) db =
          .ok (db, some { status := 500, body := .error m }) := rfl
    rw [h] at hrun
    simp only [Except.ok.injEq, Prod.mk.injEq, Option.some.injEq] at hrun
    obtain ⟨_, hr⟩ := hrun
    rw [← hr] at hok
    simp at hok
  | thrown m =>
    have h : handle ⟨.thrown m, second, openai, gateway, stripe, now, newId, createdAt,
        numberText⟩ (.processOrder body) db =
          .ok (db, some { status := 500, body := .error m }) := rfl
    rw [h] at hrun
    simp only [Except.ok.injEq, Prod.mk.injEq, Option.some.injEq] at hrun
    obtain ⟨_, hr⟩ := hrun
    rw [← hr] at hok
    simp at hok

/-- C26 (witness): the sample order of two teas and one cup for 12 dollars, with a gateway
that fails: the order is stored and returned, and the one request sent to the gateway is the
confirmation message for the customer phone. -/
theorem C26_order_and_confirmation_witness :
    handle { sampleEnv with gateway := fun _ => .rejected "ECONNREFUSED" }
        (.processOrder sampleOrder) sampleDatabase =
      .ok ({ sampleDatabase with
          orders := sampleDatabase.orders ++
            [{ id := "42", customer_phone := some "+15551234567",
               items := some [some { name := .str "Tea", quantity := some 2 },
                 some { name := .str "Cup", quantity := some 1 }],
               total := some 12, payment_intent_id := some "pi_1", status := "confirmed",
               confirmation_number := "ORD-1700000000000", created_at := 9 }] },
        some { status := 200
               body := .orderPlaced
                 { id := "42", customer_phone := some "+15551234567",
                   items := some [some { name := .str "Tea", quantity := some 2 },
                     some { name := .str "Cup", quantity := some 1 }],
                   total := some 12, payment_intent_id := some "pi_1", status := "confirmed",
                   confirmation_number := "ORD-1700000000000", created_at := 9 } }) ∧
    gatewayRequests
        (processOrder .ok (fun _ => .rejected "ECONNREFUSED") wholeNumberText 1700000000000 "42" 9
          sampleOrder) sampleDatabase =
      [{ phone := some "+15551234567"
         text := "Order Confirmed! \nConfirmation #: ORD-1700000000000\nTotal: $12\nItems: Tea x2, Cup x1\nThank you for your order!" }] := by
  have hrun : handle { sampleEnv with gateway := fun _ => .rejected "ECONNREFUSED" }
      (.processOrder sampleOrder) sampleDatabase =
      .ok ({ sampleDatabase with
          orders := sampleDatabase.orders ++
            [{ id := "42", customer_phone := some "+15551234567",
               items := some [some { name := .str "Tea", quantity := some 2 },
                 some { name := .str "Cup", quantity := some 1 }],
               total := some 12, payment_intent_id := some "pi_1", status := "confirmed",
               confirmation_number := "ORD-1700000000000", created_at := 9 }] },
        some { status := 200
               body := .orderPlaced
                 { id := "42", customer_phone := some "+15551234567",
                   items := some [some { name := .str "Tea", quantity := some 2 },
                     some { name := .str "Cup", quantity := some 1 }],
                   total := some 12, payment_intent_id := some "pi_1", status := "confirmed",
                   confirmation_number := "ORD-1700000000000", created_at := 9 } }) := rfl
  obtain ⟨items, order, hitems, _, _, _, _, _, _, hnumber, hsent⟩ :=
    C26_order_and_confirmation { sampleEnv with gateway := fun _ => .rejected "ECONNREFUSED" }
      sampleOrder sampleDatabase _ _ hrun rfl
  refine ⟨hrun, ?_⟩
  have hlist : items = [{ name := .str "Tea", quantity := some 2 },
      { name := .str "Cup", quantity := some 1 }] := by
    have h : List.map some items = List.map some
        [{ name := .str "Tea", quantity := some 2 },
          ({ name := .str "Cup", quantity := some 1 } : OrderItem)] :=
      Option.some.inj hitems.symm
    exact List.map_injective_iff.mpr (Option.some_injective _) h
  rw [hlist, hnumber] at hsent
  exact hsent

/-- C27: `formatDuration`, for every whole number of seconds `s`: `0s` when `s` is 0 or missing;
`s` followed by `s` when `0 < s < 60`; and otherwise `m`, `m `, `r`, `s` with `m` the quotient
of `s` by 60 and `r` the remainder, so that `60 * m + r = s` and `r < 60`. -/
theorem C27_formatDuration (s : Nat) :
    formatDuration none = "0s" ∧
    formatDuration (some 0) = "0s" ∧
    (0 < s → s < 60 → formatDuration (some s) = toString s ++ "s") ∧
    (60 ≤ s →
      formatDuration (some s) = toString (s / 60) ++ "m " ++ toString (s % 60) ++ "s" ∧
        60 * (s / 60) + s % 60 = s ∧ s % 60 < 60) := by
  refine ⟨rfl, rfl, ?_, ?_⟩
  · intro hpos hlt
    have h0 : s ≠ 0 := by omega
    have hdiv : s / 60 = 0 := by omega
    have hmod : s % 60 = s := by omega
    simp [formatDuration, h0, hdiv, hmod]
  · intro hge
    have h0 : s ≠ 0 := by omega
    have hdiv : s / 60 > 0 := by omega
    refine ⟨?_, by omega, by omega⟩
    simp [formatDuration, h0, hdiv]

/-- C27 (witness): 45 seconds and 125 seconds. -/
theorem C27_formatDuration_witness :
    formatDuration (some 45) = "45s" ∧ formatDuration (some 125) = "2m 5s" ∧
      60 * (125 / 60) + 125 % 60 = 125 :=
  ⟨((C27_formatDuration 45).2.2.1 (by decide) (by decide)).trans (by decide),
    (((C27_formatDuration 125).2.2.2 (by decide)).1).trans (by decide),
    ((C27_formatDuration 125).2.2.2 (by decide)).2.1⟩

/-- C28: in `CallLogs`, for every list of calls, search term and status filter, `filteredCalls`
is a sublist of the calls in their order; when the status filter is not `all` every call of it
has exactly that status; and every call of it has a caller number in which the search term
occurs as it is written, or a transcript in whose lower-cased text the lower-cased search term
occurs. -/
theorem C28_filteredCalls_sound (toLowerCase : String → String) (calls : List CallRecord)
    (searchTerm statusFilter : String) :
    List.Sublist (filteredCalls toLowerCase calls searchTerm statusFilter) calls ∧
    (statusFilter ≠ "all" →
      ∀ call ∈ filteredCalls toLowerCase calls searchTerm statusFilter,
        call.status = statusFilter) ∧
    (∀ call ∈ filteredCalls toLowerCase calls searchTerm statusFilter,
      (∃ number, call.caller_number = some number ∧ searchTerm.data <:+: number.data) ∨
      (∃ transcript, call.transcript = some transcript ∧
        (toLowerCase searchTerm).data <:+: (toLowerCase transcript).data)) := by
  refine ⟨List.filter_sublist _, ?_, ?_⟩
  · intro hne call hcall
    have h := (List.mem_filter.mp hcall).2
    simp only [Bool.and_eq_true, matchesStatus, Bool.or_eq_true, beq_iff_eq] at h
    rcases h.2 with hall | hst
    · exact absurd hall hne
    · exact hst
  · intro call hcall
    have h := ((Bool.and_eq_true _ _).mp (List.mem_filter.mp hcall).2).1
    unfold matchesSearch at h
    rcases (Bool.or_eq_true _ _).mp h with h1 | h2
    · left
      cases hn : call.caller_number with
      | none => simp [hn] at h1
      | some number =>
        rw [hn] at h1
        exact ⟨number, rfl, of_decide_eq_true h1⟩
    · right
      cases ht : call.transcript with
      | none => simp [ht] at h2
      | some transcript =>
        rw [ht] at h2
        exact ⟨transcript, rfl, of_decide_eq_true h2⟩

/-- C29 (counterexample): with an empty search term and the status filter `all`, a call that
has neither a caller number nor a transcript is hidden. -/
theorem C29_call_without_number_hidden :
    filteredCalls asciiLowerCase
        [sampleRecord, { sampleRecord with caller_number := none, call_sid := some "CA999" }]
        "" "all" = [sampleRecord] ∧
      sampleRecord.transcript = none := by
  decide

/-- C29 (amended): in `CallLogs`, with an empty search term and the status filter `all`, no call
that has a caller number or a transcript is hidden: for every list of such calls,
`filteredCalls` is the full list. (Lower-casing the empty text gives the empty text.) -/
theorem C29_default_view_shows_calls (toLowerCase : String → String)
    (calls : List CallRecord) (hlower : toLowerCase "" = "")
    (hcalls : ∀ call ∈ calls, call.caller_number ≠ none ∨ call.transcript ≠ none) :
    filteredCalls toLowerCase calls "" "all" = calls := by
  unfold filteredCalls
  rw [List.filter_eq_self]
  intro call hcall
  have hempty : ∀ s : String, includes s "" = true := by
    intro s
    simp [includes]
  have hstatus : matchesStatus "all" call = true := by simp [matchesStatus]
  rw [hstatus, Bool.and_true]
  unfold matchesSearch
  rw [hlower]
  rcases hcalls call hcall with hn | ht
  · cases h : call.caller_number with
    | none => exact absurd h hn
    | some number => simp [hempty]
  · cases h : call.transcript with
    | none => exact absurd h ht
    | some transcript => simp [hempty]

/-- C29 (witness): a call with a caller number and a call with a transcript only. -/
theorem C29_default_view_shows_calls_witness :
    filteredCalls asciiLowerCase
        [sampleRecord, { sampleRecord with caller_number := none, transcript := some "Hello" }]
        "" "all" =
      [sampleRecord, { sampleRecord with caller_number := none, transcript := some "Hello" }] :=
  C29_default_view_shows_calls asciiLowerCase
    [sampleRecord, { sampleRecord with caller_number := none, transcript := some "Hello" }]
    rfl (by decide)

end Callbot
